import Mathlib

/-!
# OSVR input device: callback demultiplexing and event dispatch

A shallow embedding of `OSVRInputDevice.cpp` (the `OSVRButton` binding record, the
two tracking-client callbacks, the constructor's binding-setup loop, the destructor,
`SendControllerEvents` and `GetControllerOrientationAndPosition`).

Conventions of the embedding:
* `float` and `double` values are modelled as exact rationals (`ℚ`); NaN is outside
  the model. Where the source stores a `double` analog report in the `float` queue, the
  value is narrowed by `doubleToFloat` (round to nearest, ties to even). The engine's
  own `float` arithmetic is taken exactly.
* `std::queue` is a list: `front` is the head, `push` appends at the end.
* Calls into the tracking client (OSVR ClientKit) are answered by an oracle record,
  and the calls that were made are kept in a trace.
-/

namespace OSVR

/-! ## Data model -/

/-- Engine key name (`FName`), represented by its text. -/
abbrev FName := String

/-- The `float` type of the source, modelled by exact rationals. -/
abbrev CFloat := ℚ

/-- The `double` type of an analog report's `state` (`OSVR_AnalogState` of the client
library), modelled by exact rationals. -/
abbrev CDouble := ℚ

/-- The search for the binary exponent of a magnitude `a` among the exponents of
normal `float` values: starting at `e`, steps up while the next power of two is still
at most `a`, for at most `fuel` steps. -/
def floatExponentFrom : Nat → ℤ → ℚ → ℤ
  | 0, e, _ => e
  | fuel + 1, e, a =>
    if (2 : ℚ) ^ (e + 1) ≤ a then floatExponentFrom fuel (e + 1) a else e

/-- The exponent `e` in `[-126, 127]` of the `float` binade a magnitude falls in:
`2 ^ e ≤ a < 2 ^ (e + 1)`, with `-126` for everything below the normal range (the
subnormal values share the spacing of the lowest binade) and `127` for everything
above. -/
def floatExponent (a : ℚ) : ℤ := floatExponentFrom 253 (-126) a

/-- Rounding to the nearest integer, a tie going to the even neighbour. -/
def roundHalfEven (q : ℚ) : ℤ :=
  if q - ⌊q⌋ < 1 / 2 then ⌊q⌋
  else if 1 / 2 < q - ⌊q⌋ then ⌊q⌋ + 1
  else if ⌊q⌋ % 2 = 0 then ⌊q⌋ else ⌊q⌋ + 1

/-- The implicit conversion of a `double` to `float` (IEEE 754 binary32, round to
nearest, ties to even): the value is rounded to a multiple of the spacing
`2 ^ (e - 23)` of its binade. A result of magnitude `2 ^ 128` or more is the infinite
`float`, for which the rational `2 ^ 128` (with the sign) stands. -/
def doubleToFloat (x : CDouble) : CFloat :=
  let ulp : ℚ := 2 ^ (floatExponent |x| - 23)
  let r : ℚ := roundHalfEven (x / ulp) * ulp
  if 2 ^ 128 ≤ r then 2 ^ 128 else if r ≤ -2 ^ 128 then -2 ^ 128 else r

/-- The kind of a binding (`enum OSVRButtonType`). -/
inductive OSVRButtonType where
  | OSVR_BUTTON_TYPE_DIGITAL
  | OSVR_BUTTON_TYPE_ANALOG
  | OSVR_BUTTON_TYPE_THRESHOLD
deriving DecidableEq, Repr

/-- The comparison direction of a threshold binding (`enum OSVRThresholdType`). -/
inductive OSVRThresholdType where
  | OSVR_THRESHOLD_TYPE_GT
  | OSVR_THRESHOLD_TYPE_LT
deriving DecidableEq, Repr

open OSVRButtonType OSVRThresholdType

/-- The binding record (`class OSVRButton`), with the member initialisers of the
source as field defaults. -/
structure OSVRButton where
  oldState : Bool := false
  isValid : Bool := true
  threshold : CFloat := 3 / 4
  key : FName
  ifacePath : String
  type : OSVRButtonType
  thresholdType : OSVRThresholdType := OSVR_THRESHOLD_TYPE_GT
  digitalStateQueue : List Bool := []
  analogStateQueue : List CFloat := []
deriving DecidableEq

/-- The three-argument constructor `OSVRButton(_type, _key, _ifacePath)`. -/
def OSVRButton.ctor (_type : OSVRButtonType) (_key : FName) (_ifacePath : String) :
    OSVRButton :=
  { type := _type, key := _key, ifacePath := _ifacePath }

/-- The five-argument constructor
`OSVRButton(_type, _thresholdType, _threshold, _key, _ifacePath)`. -/
def OSVRButton.ctorThreshold (_type : OSVRButtonType) (_thresholdType : OSVRThresholdType)
    (_threshold : CFloat) (_key : FName) (_ifacePath : String) : OSVRButton :=
  { type := _type, thresholdType := _thresholdType, threshold := _threshold,
    key := _key, ifacePath := _ifacePath }

/-- The state byte of a button report (`OSVR_ButtonState`, an unsigned 8-bit value of
the client library). -/
abbrev OSVR_ButtonState := Nat

/-- The client library's constant for a pressed button. -/
def OSVR_BUTTON_PRESSED : OSVR_ButtonState := 1

/-! ## Callbacks -/

/-- The function `buttonCallback`: the button is the `userdata`, `state` is
`report->state`. -/
def buttonCallback (button : OSVRButton) (state : OSVR_ButtonState) : OSVRButton :=
  { button with
    digitalStateQueue := button.digitalStateQueue ++ [state == OSVR_BUTTON_PRESSED] }

/-- The function `analogCallback`: the button is the `userdata`, `state` is
`report->state`, a `double`. The threshold comparison promotes the `float` threshold to
`double`, which is exact; the push into the `float` queue narrows the state. -/
def analogCallback (button : OSVRButton) (state : CDouble) : OSVRButton :=
  if button.type = OSVR_BUTTON_TYPE_THRESHOLD then
    let newState : Bool :=
      (button.thresholdType == OSVR_THRESHOLD_TYPE_GT && decide (state > button.threshold)) ||
      (button.thresholdType == OSVR_THRESHOLD_TYPE_LT && decide (state < button.threshold))
    let pushed : OSVRButton :=
      if newState != button.oldState then
        { button with digitalStateQueue := button.digitalStateQueue ++ [newState] }
      else button
    { pushed with oldState := newState }
  else
    { button with analogStateQueue := button.analogStateQueue ++ [doubleToFloat state] }

/-- The tracking client delivering a sequence of analog reports to one binding, one
`analogCallback` invocation per report, in order. -/
def deliverAnalog (button : OSVRButton) (samples : List CDouble) : OSVRButton :=
  samples.foldl analogCallback button

/-- The tracking client delivering a sequence of button reports to one binding, one
`buttonCallback` invocation per report, in order. -/
def deliverButton (button : OSVRButton) (states : List OSVR_ButtonState) : OSVRButton :=
  states.foldl buttonCallback button

/-- The thresholded signal `p(s)` in the words of the specification: the comparison is
GreaterThan and the sample is above the threshold, or it is LessThan and the sample is
below the threshold. -/
def thresholdSignal (button : OSVRButton) (s : CFloat) : Bool :=
  (button.thresholdType = OSVR_THRESHOLD_TYPE_GT ∧ s > button.threshold) ∨
  (button.thresholdType = OSVR_THRESHOLD_TYPE_LT ∧ s < button.threshold)

/-- The thresholded value of the sample before the next one, `false` when there is
none (the specification's `p(s_0)`). -/
def previousSignal (button : OSVRButton) (pre : List CFloat) : Bool :=
  (pre.getLast?.map (thresholdSignal button)).getD false

/-! ## The device and the event dispatcher -/

/-- A nullable pointer to a client interface object (`OSVR_ClientInterface`);
`none` is `nullptr`, `some h` points to the interface object `h`. -/
abbrev OSVR_ClientInterface := Option Nat

/-- A nullable pointer to the client context (`OSVR_ClientContext`). -/
abbrev OSVR_ClientContext := Option Nat

/-- The calls `SendControllerEvents` makes on the message handler, with their
arguments. -/
inductive Notification where
  | OnControllerButtonPressed (key : FName) (controllerId : Int) (isRepeat : Bool)
  | OnControllerButtonReleased (key : FName) (controllerId : Int) (isRepeat : Bool)
  | OnControllerAnalog (key : FName) (controllerId : Int) (value : CFloat)
deriving DecidableEq

open Notification

/-- The data members of `FOSVRInputDevice` (the message handler is kept outside: the
calls made on it are returned by `SendControllerEvents`). -/
structure FOSVRInputDevice where
  context : OSVR_ClientContext
  contextValid : Bool
  osvrButtons : List OSVRButton
  interfaces : List (String × OSVR_ClientInterface)
  leftHand : OSVR_ClientInterface
  rightHand : OSVR_ClientInterface
  leftHandValid : Bool
  rightHandValid : Bool
deriving DecidableEq

/-- The first `while` loop of `SendControllerEvents`: pops the digital queue until it is
empty, one handler call per popped state, appended to the calls `sent` so far. Returns
the queue left behind and the calls. -/
def drainDigitalStateQueue (key : FName) (controllerId : Int) :
    List Bool → List Notification → List Bool × List Notification
  | [], sent => ([], sent)
  | state :: rest, sent =>
    drainDigitalStateQueue key controllerId rest
      (sent ++ [if state then OnControllerButtonPressed key controllerId false
                else OnControllerButtonReleased key controllerId false])

/-- The second `while` loop of `SendControllerEvents`: pops the analog queue until it is
empty, one `OnControllerAnalog` call per popped value. -/
def drainAnalogStateQueue (key : FName) (controllerId : Int) :
    List CFloat → List Notification → List CFloat × List Notification
  | [], sent => ([], sent)
  | state :: rest, sent =>
    drainAnalogStateQueue key controllerId rest
      (sent ++ [OnControllerAnalog key controllerId state])

/-- The body of the `for` loop of `SendControllerEvents` for one button. -/
def sendButtonEvents (controllerId : Int) (button : OSVRButton)
    (sent : List Notification) : OSVRButton × List Notification :=
  if button.isValid then
    let digital := drainDigitalStateQueue button.key controllerId button.digitalStateQueue sent
    let analog := drainAnalogStateQueue button.key controllerId button.analogStateQueue digital.2
    ({ button with digitalStateQueue := digital.1, analogStateQueue := analog.1 }, analog.2)
  else
    (button, sent)

/-- The `for` loop of `SendControllerEvents` over the buttons from the current index
on. -/
def sendButtonsLoop (controllerId : Int) :
    List OSVRButton → List Notification → List OSVRButton × List Notification
  | [], sent => ([], sent)
  | button :: rest, sent =>
    let first := sendButtonEvents controllerId button sent
    let others := sendButtonsLoop controllerId rest first.2
    (first.1 :: others.1, others.2)

/-- The method `FOSVRInputDevice::SendControllerEvents`: the device afterwards and the
handler calls, in the order they were made. -/
def FOSVRInputDevice.SendControllerEvents (d : FOSVRInputDevice) :
    FOSVRInputDevice × List Notification :=
  let controllerId : Int := 0
  let r := sendButtonsLoop controllerId d.osvrButtons []
  ({ d with osvrButtons := r.1 }, r.2)

/-- The notification the specification assigns to a digital sample: pressed for
`true`, released for `false`, with the binding's key and controller index 0. -/
def digitalNotification (key : FName) (state : Bool) : Notification :=
  if state then OnControllerButtonPressed key 0 false
  else OnControllerButtonReleased key 0 false

/-- The notifications the specification assigns to one binding: its digital samples in
FIFO order, then its analog samples in FIFO order. -/
def bindingNotifications (b : OSVRButton) : List Notification :=
  b.digitalStateQueue.map (digitalNotification b.key) ++
    b.analogStateQueue.map (OnControllerAnalog b.key 0)

/-- The notifications the specification assigns to a list of bindings: those of the
valid bindings, in list order. -/
def expectedNotifications (bs : List OSVRButton) : List Notification :=
  ((bs.filter (fun b => b.isValid)).map bindingNotifications).flatten

/-- The number of samples queued on a binding. -/
def queuedSamples (b : OSVRButton) : Nat :=
  b.digitalStateQueue.length + b.analogStateQueue.length

/-- A binding after a dispatch as the specification describes it: a valid binding has
both queues emptied, an invalid binding is untouched. -/
def afterDispatch (b : OSVRButton) : OSVRButton :=
  if b.isValid then { b with digitalStateQueue := [], analogStateQueue := [] } else b

/-! ## The tracking client, the constructor and the destructor -/

/-- The result code of a client-library call (`OSVR_ReturnCode`), with the library's two
values. -/
inductive OSVR_ReturnCode where
  | OSVR_RETURN_SUCCESS
  | OSVR_RETURN_FAILURE
deriving DecidableEq, Repr

open OSVR_ReturnCode

/-- A three-component vector of the client library. -/
structure OSVR_Vec3 where
  x : CFloat
  y : CFloat
  z : CFloat
deriving DecidableEq

/-- A quaternion of the client library. -/
structure OSVR_Quaternion where
  w : CFloat
  x : CFloat
  y : CFloat
  z : CFloat
deriving DecidableEq

/-- A pose report of the client library (`OSVR_PoseState`). -/
structure OSVR_PoseState where
  translation : OSVR_Vec3
  rotation : OSVR_Quaternion
deriving DecidableEq

/-- The tracking client as an oracle: what each library call answers.
`osvrClientGetInterface` answers `some h` for success (the library stores the non-null
interface object `h` in the out-parameter) and `none` for any other result code.
The callback registrations receive the interface pointer and the index of the button
passed as `userdata`. `osvrGetPoseState` answers `some state` for success. -/
structure ClientKit where
  osvrClientCheckStatus : OSVR_ClientContext → OSVR_ReturnCode
  osvrClientGetInterface : OSVR_ClientContext → String → Option Nat
  osvrRegisterButtonCallback : OSVR_ClientInterface → Nat → OSVR_ReturnCode
  osvrRegisterAnalogCallback : OSVR_ClientInterface → Nat → OSVR_ReturnCode
  osvrGetPoseState : OSVR_ClientInterface → Option OSVR_PoseState

/-- The calls the constructor and the destructor make on the tracking client and on the
engine, with their arguments and results. -/
inductive ClientCall where
  | getInterface (path : String) (result : Option Nat)
  | registerButtonCallback (iface : OSVR_ClientInterface) (button : Nat)
      (rc : OSVR_ReturnCode)
  | registerAnalogCallback (iface : OSVR_ClientInterface) (button : Nat)
      (rc : OSVR_ReturnCode)
  | freeInterface (iface : Nat)
  | registerModularFeature
  | addMotionControllerDevice
deriving DecidableEq

open ClientCall

/-- The path-to-handle map `interfaces`, as an association list (the iteration order of
the container is not modelled; statements about the destructor are up to
permutation). -/
abbrev InterfaceMap := List (String × OSVR_ClientInterface)

/-- The assignment `interfaces[path] = iface`: overwrites the entry of `path` when there
is one, adds an entry otherwise. -/
def InterfaceMap.assign (m : InterfaceMap) (path : String) (iface : OSVR_ClientInterface) :
    InterfaceMap :=
  if (m.lookup path).isSome then
    m.map (fun e => if e.1 = path then (path, iface) else e)
  else m ++ [(path, iface)]

/-- The state of one iteration of the setup loop: the button, the local `iface`, the
map and the calls made in this iteration. -/
structure SetupStep where
  button : OSVRButton
  iface : OSVR_ClientInterface
  interfaces : InterfaceMap
  calls : List ClientCall

/-- The first half of the setup loop body: find the button's path in the map, and
resolve it through the client when it is not there. -/
def resolveButtonInterface (kit : ClientKit) (context : OSVR_ClientContext)
    (button : OSVRButton) (interfaces : InterfaceMap) : SetupStep :=
  match interfaces.lookup button.ifacePath with
  | none =>
    match kit.osvrClientGetInterface context button.ifacePath with
    | none =>
      { button := { button with isValid := false }, iface := none,
        interfaces := interfaces, calls := [getInterface button.ifacePath none] }
    | some h =>
      { button := button, iface := some h,
        interfaces := interfaces.assign button.ifacePath (some h),
        calls := [getInterface button.ifacePath (some h)] }
  | some stored =>
    { button := button, iface := stored, interfaces := interfaces, calls := [] }

/-- The second half of the setup loop body: `if (button.isValid) { ... }`, registering
the button callback for a digital button and the analog callback for an analog or
threshold button; `i` is the button's index, standing for `&button`. -/
def registerButtonCallbacks (kit : ClientKit) (i : Nat) (s : SetupStep) : SetupStep :=
  if s.button.isValid then
    let s1 : SetupStep :=
      if s.button.type = OSVR_BUTTON_TYPE_DIGITAL then
        let rc := kit.osvrRegisterButtonCallback s.iface i
        { s with
          button := if rc = OSVR_RETURN_FAILURE then { s.button with isValid := false }
                    else s.button,
          calls := s.calls ++ [registerButtonCallback s.iface i rc] }
      else s
    if s1.button.type = OSVR_BUTTON_TYPE_ANALOG ∨
        s1.button.type = OSVR_BUTTON_TYPE_THRESHOLD then
      let rc := kit.osvrRegisterAnalogCallback s1.iface i
      { s1 with
        button := if rc = OSVR_RETURN_FAILURE then { s1.button with isValid := false }
                  else s1.button,
        calls := s1.calls ++ [registerAnalogCallback s1.iface i rc] }
    else s1
  else s

/-- One iteration of the setup loop, for the button at index `i`. -/
def setupButton (kit : ClientKit) (context : OSVR_ClientContext) (i : Nat)
    (button : OSVRButton) (interfaces : InterfaceMap) : SetupStep :=
  registerButtonCallbacks kit i (resolveButtonInterface kit context button interfaces)

/-- The result of the setup loop: the buttons, the map and all calls made. -/
structure SetupResult where
  osvrButtons : List OSVRButton
  interfaces : InterfaceMap
  calls : List ClientCall

/-- The setup loop `for (size_t i = 0; i < osvrButtons.size(); i++)` of the
constructor, from index `i` on, over the buttons that remain. -/
def setupButtonsLoop (kit : ClientKit) (context : OSVR_ClientContext) :
    Nat → List OSVRButton → InterfaceMap → SetupResult
  | _, [], interfaces => { osvrButtons := [], interfaces := interfaces, calls := [] }
  | i, button :: rest, interfaces =>
    let first := setupButton kit context i button interfaces
    let others := setupButtonsLoop kit context (i + 1) rest first.interfaces
    { osvrButtons := first.button :: others.osvrButtons,
      interfaces := others.interfaces,
      calls := first.calls ++ others.calls }

/-- The constructor `FOSVRInputDevice::FOSVRInputDevice` with the binding table as a
parameter: the device and the calls made. Members the constructor does not assign are
null, false or empty. -/
def FOSVRInputDevice.ctorWith (kit : ClientKit) (context : OSVR_ClientContext)
    (table : List OSVRButton) : FOSVRInputDevice × List ClientCall :=
  let contextValid : Bool :=
    context.isSome && decide (kit.osvrClientCheckStatus context = OSVR_RETURN_SUCCESS)
  if contextValid then
    let setup := setupButtonsLoop kit context 0 table []
    let left := kit.osvrClientGetInterface context "/me/hands/left"
    let right := kit.osvrClientGetInterface context "/me/hands/right"
    ({ context := context, contextValid := contextValid,
       osvrButtons := setup.osvrButtons, interfaces := setup.interfaces,
       leftHand := left, rightHand := right,
       leftHandValid := left.isSome, rightHandValid := right.isSome },
     setup.calls ++
       [getInterface "/me/hands/left" left, getInterface "/me/hands/right" right,
        registerModularFeature, addMotionControllerDevice])
  else
    ({ context := context, contextValid := contextValid,
       osvrButtons := [], interfaces := [], leftHand := none, rightHand := none,
       leftHandValid := false, rightHandValid := false }, [])

/-- The `if (hand) osvrClientFreeInterface(context, hand)` of the destructor. -/
def freeIfNotNull (iface : OSVR_ClientInterface) : List ClientCall :=
  match iface with
  | some h => [freeInterface h]
  | none => []

/-- The loop `for (auto iface : interfaces)` of the destructor. -/
def freeInterfacesLoop : InterfaceMap → List ClientCall
  | [] => []
  | iface :: rest => freeIfNotNull iface.2 ++ freeInterfacesLoop rest

/-- The destructor `FOSVRInputDevice::~FOSVRInputDevice`: the release calls it makes. -/
def FOSVRInputDevice.dtor (d : FOSVRInputDevice) : List ClientCall :=
  if d.context.isSome then
    freeIfNotNull d.leftHand ++ freeIfNotNull d.rightHand ++ freeInterfacesLoop d.interfaces
  else []

/-- The successful resolve calls of a trace: path and handle, in call order. -/
def successfulResolves : List ClientCall → List (String × Nat)
  | [] => []
  | getInterface path (some h) :: rest => (path, h) :: successfulResolves rest
  | _ :: rest => successfulResolves rest

/-- The registration the specification assigns to a binding kind: the button callback
for Digital, the analog callback for Analog and Threshold. -/
def expectedRegistration (kit : ClientKit) (type : OSVRButtonType)
    (iface : OSVR_ClientInterface) (i : Nat) : ClientCall :=
  match type with
  | OSVR_BUTTON_TYPE_DIGITAL =>
    registerButtonCallback iface i (kit.osvrRegisterButtonCallback iface i)
  | _ => registerAnalogCallback iface i (kit.osvrRegisterAnalogCallback iface i)

/-- The result code of a registration call. -/
def ClientCall.registrationResult : ClientCall → Option OSVR_ReturnCode
  | registerButtonCallback _ _ rc => some rc
  | registerAnalogCallback _ _ rc => some rc
  | _ => none

/-- The result code of the registration the specification assigns to a binding
kind. -/
def registrationOutcome (kit : ClientKit) (type : OSVRButtonType)
    (iface : OSVR_ClientInterface) (i : Nat) : OSVR_ReturnCode :=
  match type with
  | OSVR_BUTTON_TYPE_DIGITAL => kit.osvrRegisterButtonCallback iface i
  | _ => kit.osvrRegisterAnalogCallback iface i

/-- Every entry of the map holds the non-null handle the client answers for its path. -/
def InterfaceMap.Sound (kit : ClientKit) (context : OSVR_ClientContext)
    (m : InterfaceMap) : Prop :=
  ∀ p v, m.lookup p = some v →
    ∃ h, v = some h ∧ kit.osvrClientGetInterface context p = some h

/-- The constant `defaultThreshold = 0.25f` of the constructor. -/
def defaultThreshold : CFloat := 1 / 4

/-- The binding table the constructor assigns to `osvrButtons`, entry by entry (keys
are the member names of `FGamepadKeyNames`). -/
def osvrButtonsTable : List OSVRButton :=
  [ -- left hand
    OSVRButton.ctor OSVR_BUTTON_TYPE_DIGITAL "SpecialLeft" "/controller/left/middle",
    OSVRButton.ctor OSVR_BUTTON_TYPE_DIGITAL "MotionController_Left_Shoulder" "/controller/left/bumper",
    OSVRButton.ctor OSVR_BUTTON_TYPE_DIGITAL "MotionController_Left_Thumbstick" "/controller/left/joystick/button",
    OSVRButton.ctor OSVR_BUTTON_TYPE_DIGITAL "MotionController_Left_FaceButton1" "/controller/left/1",
    OSVRButton.ctor OSVR_BUTTON_TYPE_DIGITAL "MotionController_Left_FaceButton2" "/controller/left/2",
    OSVRButton.ctor OSVR_BUTTON_TYPE_DIGITAL "MotionController_Left_FaceButton3" "/controller/left/3",
    OSVRButton.ctor OSVR_BUTTON_TYPE_DIGITAL "MotionController_Left_FaceButton4" "/controller/left/4",
    OSVRButton.ctor OSVR_BUTTON_TYPE_ANALOG "MotionController_Left_Thumbstick_X" "/controller/left/joystick/x",
    OSVRButton.ctorThreshold OSVR_BUTTON_TYPE_THRESHOLD OSVR_THRESHOLD_TYPE_GT defaultThreshold "MotionController_Left_Thumbstick_Right" "/controller/left/joystick/x",
    OSVRButton.ctorThreshold OSVR_BUTTON_TYPE_THRESHOLD OSVR_THRESHOLD_TYPE_LT (-defaultThreshold) "MotionController_Left_Thumbstick_Left" "/controller/left/joystick/x",
    OSVRButton.ctor OSVR_BUTTON_TYPE_ANALOG "MotionController_Left_Thumbstick_Y" "/controller/left/joystick/y",
    OSVRButton.ctorThreshold OSVR_BUTTON_TYPE_THRESHOLD OSVR_THRESHOLD_TYPE_GT defaultThreshold "MotionController_Left_Thumbstick_Up" "/controller/left/joystick/y",
    OSVRButton.ctorThreshold OSVR_BUTTON_TYPE_THRESHOLD OSVR_THRESHOLD_TYPE_LT (-defaultThreshold) "MotionController_Left_Thumbstick_Down" "/controller/left/joystick/y",
    OSVRButton.ctor OSVR_BUTTON_TYPE_ANALOG "MotionController_Left_TriggerAxis" "/controller/left/trigger",
    OSVRButton.ctor OSVR_BUTTON_TYPE_THRESHOLD "MotionController_Left_Trigger" "/controller/left/trigger",
    -- right hand
    OSVRButton.ctor OSVR_BUTTON_TYPE_DIGITAL "SpecialRight" "/controller/right/middle",
    OSVRButton.ctor OSVR_BUTTON_TYPE_DIGITAL "MotionController_Right_Shoulder" "/controller/right/bumper",
    OSVRButton.ctor OSVR_BUTTON_TYPE_DIGITAL "MotionController_Right_Thumbstick" "/controller/right/joystick/button",
    OSVRButton.ctor OSVR_BUTTON_TYPE_DIGITAL "MotionController_Right_FaceButton1" "/controller/right/1",
    OSVRButton.ctor OSVR_BUTTON_TYPE_DIGITAL "MotionController_Right_FaceButton2" "/controller/right/2",
    OSVRButton.ctor OSVR_BUTTON_TYPE_DIGITAL "MotionController_Right_FaceButton3" "/controller/right/3",
    OSVRButton.ctor OSVR_BUTTON_TYPE_DIGITAL "MotionController_Right_FaceButton4" "/controller/right/4",
    OSVRButton.ctor OSVR_BUTTON_TYPE_ANALOG "MotionController_Right_Thumbstick_X" "/controller/right/joystick/x",
    OSVRButton.ctorThreshold OSVR_BUTTON_TYPE_THRESHOLD OSVR_THRESHOLD_TYPE_GT defaultThreshold "MotionController_Right_Thumbstick_Right" "/controller/right/joystick/x",
    OSVRButton.ctorThreshold OSVR_BUTTON_TYPE_THRESHOLD OSVR_THRESHOLD_TYPE_LT (-defaultThreshold) "MotionController_Right_Thumbstick_Left" "/controller/right/joystick/x",
    OSVRButton.ctor OSVR_BUTTON_TYPE_ANALOG "MotionController_Right_Thumbstick_Y" "/controller/right/joystick/y",
    OSVRButton.ctorThreshold OSVR_BUTTON_TYPE_THRESHOLD OSVR_THRESHOLD_TYPE_GT defaultThreshold "MotionController_Right_Thumbstick_Up" "/controller/right/joystick/y",
    OSVRButton.ctorThreshold OSVR_BUTTON_TYPE_THRESHOLD OSVR_THRESHOLD_TYPE_LT (-defaultThreshold) "MotionController_Right_Thumbstick_Down" "/controller/right/joystick/y",
    OSVRButton.ctor OSVR_BUTTON_TYPE_ANALOG "MotionController_Right_TriggerAxis" "/controller/right/trigger",
    OSVRButton.ctor OSVR_BUTTON_TYPE_THRESHOLD "MotionController_Right_Trigger" "/controller/right/trigger",
    -- "controller" (like xbox360)
    OSVRButton.ctor OSVR_BUTTON_TYPE_DIGITAL "RightShoulder" "/controller/right/bumper",
    OSVRButton.ctor OSVR_BUTTON_TYPE_DIGITAL "RightThumb" "/controller/right/joystick/button",
    OSVRButton.ctor OSVR_BUTTON_TYPE_DIGITAL "FaceButtonBottom" "/controller/right/1",
    OSVRButton.ctor OSVR_BUTTON_TYPE_DIGITAL "FaceButtonRight" "/controller/right/2",
    OSVRButton.ctor OSVR_BUTTON_TYPE_DIGITAL "FaceButtonLeft" "/controller/right/3",
    OSVRButton.ctor OSVR_BUTTON_TYPE_DIGITAL "FaceButtonTop" "/controller/right/4",
    OSVRButton.ctor OSVR_BUTTON_TYPE_DIGITAL "LeftShoulder" "/controller/left/bumper",
    OSVRButton.ctor OSVR_BUTTON_TYPE_DIGITAL "LeftThumb" "/controller/left/joystick/button",
    OSVRButton.ctor OSVR_BUTTON_TYPE_DIGITAL "DPadDown" "/controller/left/1",
    OSVRButton.ctor OSVR_BUTTON_TYPE_DIGITAL "DPadRight" "/controller/left/2",
    OSVRButton.ctor OSVR_BUTTON_TYPE_DIGITAL "DPadLeft" "/controller/left/3",
    OSVRButton.ctor OSVR_BUTTON_TYPE_DIGITAL "DPadUp" "/controller/left/4",
    OSVRButton.ctor OSVR_BUTTON_TYPE_ANALOG "LeftAnalogX" "/controller/left/joystick/x",
    OSVRButton.ctorThreshold OSVR_BUTTON_TYPE_THRESHOLD OSVR_THRESHOLD_TYPE_GT defaultThreshold "LeftStickRight" "/controller/left/joystick/x",
    OSVRButton.ctorThreshold OSVR_BUTTON_TYPE_THRESHOLD OSVR_THRESHOLD_TYPE_LT (-defaultThreshold) "LeftStickLeft" "/controller/left/joystick/x",
    OSVRButton.ctor OSVR_BUTTON_TYPE_ANALOG "LeftAnalogY" "/controller/left/joystick/y",
    OSVRButton.ctorThreshold OSVR_BUTTON_TYPE_THRESHOLD OSVR_THRESHOLD_TYPE_GT defaultThreshold "LeftStickUp" "/controller/left/joystick/y",
    OSVRButton.ctorThreshold OSVR_BUTTON_TYPE_THRESHOLD OSVR_THRESHOLD_TYPE_LT (-defaultThreshold) "LeftStickDown" "/controller/left/joystick/y",
    OSVRButton.ctor OSVR_BUTTON_TYPE_ANALOG "RightAnalogX" "/controller/right/joystick/x",
    OSVRButton.ctorThreshold OSVR_BUTTON_TYPE_THRESHOLD OSVR_THRESHOLD_TYPE_GT defaultThreshold "RightStickRight" "/controller/right/joystick/x",
    OSVRButton.ctorThreshold OSVR_BUTTON_TYPE_THRESHOLD OSVR_THRESHOLD_TYPE_LT (-defaultThreshold) "RightStickLeft" "/controller/right/joystick/x",
    OSVRButton.ctor OSVR_BUTTON_TYPE_ANALOG "RightAnalogY" "/controller/right/joystick/y",
    OSVRButton.ctorThreshold OSVR_BUTTON_TYPE_THRESHOLD OSVR_THRESHOLD_TYPE_GT defaultThreshold "RightStickUp" "/controller/right/joystick/y",
    OSVRButton.ctorThreshold OSVR_BUTTON_TYPE_THRESHOLD OSVR_THRESHOLD_TYPE_LT (-defaultThreshold) "RightStickDown" "/controller/right/joystick/y",
    OSVRButton.ctor OSVR_BUTTON_TYPE_ANALOG "LeftTriggerAnalog" "/controller/left/trigger",
    OSVRButton.ctor OSVR_BUTTON_TYPE_ANALOG "RightTriggerAnalog" "/controller/right/trigger",
    OSVRButton.ctor OSVR_BUTTON_TYPE_THRESHOLD "LeftTriggerThreshold" "/controller/left/trigger",
    OSVRButton.ctor OSVR_BUTTON_TYPE_THRESHOLD "RightTriggerThreshold" "/controller/right/trigger" ]

/-- The constructor `FOSVRInputDevice::FOSVRInputDevice` as written, with its built-in
binding table. -/
def FOSVRInputDevice.ctor (kit : ClientKit) (context : OSVR_ClientContext) :
    FOSVRInputDevice × List ClientCall :=
  FOSVRInputDevice.ctorWith kit context osvrButtonsTable

/-- The device after `n` further `SendControllerEvents` calls with no callback in
between. -/
def FOSVRInputDevice.afterTicks (d : FOSVRInputDevice) : Nat → FOSVRInputDevice
  | 0 => d
  | n + 1 => (d.afterTicks n).SendControllerEvents.1

/-! ## Controller pose -/

/-- The engine's vector type. -/
structure FVector where
  X : CFloat
  Y : CFloat
  Z : CFloat
deriving DecidableEq

/-- The engine's quaternion type. -/
structure FQuat where
  X : CFloat
  Y : CFloat
  Z : CFloat
  W : CFloat
deriving DecidableEq

/-- The engine's rotator type. -/
structure FRotator where
  Pitch : CFloat
  Yaw : CFloat
  Roll : CFloat
deriving DecidableEq

/-- The engine's `FVector * float`: every component times the scale. -/
def FVector.scale (v : FVector) (k : CFloat) : FVector :=
  { X := v.X * k, Y := v.Y * k, Z := v.Z * k }

/-- The engine's hand enumeration (`EControllerHand`), by its underlying value, so
that every enumerator of any engine version is a value. -/
abbrev EControllerHand := Nat

/-- The enumerator `EControllerHand::Left`. -/
def EControllerHand.Left : EControllerHand := 0

/-- The enumerator `EControllerHand::Right`. -/
def EControllerHand.Right : EControllerHand := 1

/-- The fixed conversions from the client's conventions to the engine's, which
`OSVRInputDevice.cpp` calls and does not define: `OSVR2FVector` and `OSVR2FQuat`
(header `OSVRTypes.h`) and the engine's `FQuat::Rotator`. They are parameters of the
model. -/
structure PoseConversions where
  OSVR2FVector : OSVR_Vec3 → FVector
  OSVR2FQuat : OSVR_Quaternion → FQuat
  Rotator : FQuat → FRotator

/-- The part of `FOSVRHMD` (`OSVRHMD.h`) the input device reads. -/
structure FOSVRHMD where
  WorldToMetersScale : CFloat
deriving DecidableEq

/-- The inline method `FOSVRHMD::GetWorldToMetersScale`. -/
def FOSVRHMD.GetWorldToMetersScale (hmd : FOSVRHMD) : CFloat :=
  hmd.WorldToMetersScale

/-- What `GetControllerOrientationAndPosition` leaves behind: the return value and the
two out-parameters. -/
structure ControllerPoseResult where
  RetVal : Bool
  OutOrientation : FRotator
  OutPosition : FVector
deriving DecidableEq

/-- The method `FOSVRInputDevice::GetControllerOrientationAndPosition`; the
out-parameters come in with the caller's values and are returned with the values they
hold at the end. -/
def FOSVRInputDevice.GetControllerOrientationAndPosition (d : FOSVRInputDevice)
    (kit : ClientKit) (conv : PoseConversions) (hmd : FOSVRHMD)
    (ControllerIndex : Int) (DeviceHand : EControllerHand)
    (OutOrientation : FRotator) (OutPosition : FVector) : ControllerPoseResult :=
  if ControllerIndex = 0 then
    if kit.osvrClientCheckStatus d.context = OSVR_RETURN_SUCCESS then
      let iface := if DeviceHand = EControllerHand.Left then d.leftHand else d.rightHand
      match kit.osvrGetPoseState iface with
      | some state =>
        let worldToMetersScale := hmd.GetWorldToMetersScale
        { RetVal := true,
          OutOrientation := conv.Rotator (conv.OSVR2FQuat state.rotation),
          OutPosition := (conv.OSVR2FVector state.translation).scale worldToMetersScale }
      | none =>
        { RetVal := false, OutOrientation := OutOrientation, OutPosition := OutPosition }
    else
      { RetVal := false, OutOrientation := OutOrientation, OutPosition := OutPosition }
  else
    { RetVal := false, OutOrientation := OutOrientation, OutPosition := OutPosition }

/-- The interface the specification assigns to a hand: the left-hand interface for
Left, the right-hand interface for every other value. -/
def handInterface (d : FOSVRInputDevice) (hand : EControllerHand) : OSVR_ClientInterface :=
  match hand with
  | 0 => d.leftHand
  | _ => d.rightHand

/-- The map entry a successful resolve call creates. -/
def resolvedEntry (e : String × Nat) : String × OSVR_ClientInterface := (e.1, some e.2)

/-! ## The device as a state machine -/

/-- What can happen to a constructed device: the tracking client delivers a button
report or an analog report to the button at index `i`, or the engine calls
`SendControllerEvents`. -/
inductive DeviceEvent where
  | buttonReport (i : Nat) (state : OSVR_ButtonState)
  | analogReport (i : Nat) (state : CFloat)
  | sendControllerEvents
deriving DecidableEq

/-- Runs a callback on the button at index `i` (its `userdata`), leaving the other
buttons alone; an index past the end reaches no button. -/
def invokeCallback (callback : OSVRButton → OSVRButton) :
    List OSVRButton → Nat → List OSVRButton
  | [], _ => []
  | button :: rest, 0 => callback button :: rest
  | button :: rest, i + 1 => button :: invokeCallback callback rest i

/-- The callbacks as the constructor registers them: `buttonCallback` only on a button
of type digital. -/
def registeredButtonCallback (state : OSVR_ButtonState) (button : OSVRButton) :
    OSVRButton :=
  if button.type = OSVR_BUTTON_TYPE_DIGITAL then buttonCallback button state else button

/-- The callbacks as the constructor registers them: `analogCallback` only on a button
of type analog or threshold. -/
def registeredAnalogCallback (state : CFloat) (button : OSVRButton) : OSVRButton :=
  if button.type = OSVR_BUTTON_TYPE_ANALOG ∨ button.type = OSVR_BUTTON_TYPE_THRESHOLD then
    analogCallback button state
  else button

/-- One event on the device. -/
def FOSVRInputDevice.step (d : FOSVRInputDevice) : DeviceEvent → FOSVRInputDevice
  | DeviceEvent.buttonReport i state =>
    { d with osvrButtons := invokeCallback (registeredButtonCallback state) d.osvrButtons i }
  | DeviceEvent.analogReport i state =>
    { d with osvrButtons := invokeCallback (registeredAnalogCallback state) d.osvrButtons i }
  | DeviceEvent.sendControllerEvents => d.SendControllerEvents.1

/-- The device after a sequence of events. -/
def FOSVRInputDevice.run (d : FOSVRInputDevice) (events : List DeviceEvent) :
    FOSVRInputDevice :=
  events.foldl FOSVRInputDevice.step d

/-- A notification of the pressed/released kind. -/
def Notification.isButtonEvent : Notification → Bool
  | OnControllerButtonPressed _ _ _ => true
  | OnControllerButtonReleased _ _ _ => true
  | OnControllerAnalog _ _ _ => false

/-- The queue discipline of a binding: an analog binding has nothing in its digital
queue, a digital or threshold binding has nothing in its analog queue. -/
def OSVRButton.QueuesMatchType (b : OSVRButton) : Prop :=
  (b.type = OSVR_BUTTON_TYPE_ANALOG → b.digitalStateQueue = []) ∧
  (b.type = OSVR_BUTTON_TYPE_DIGITAL ∨ b.type = OSVR_BUTTON_TYPE_THRESHOLD →
    b.analogStateQueue = [])

/-! ## HMD calibration -/

/-- The pose members `OSVRHMD.h` declares in `FOSVRHMD`, on top of the scale: the
current pose, the last applied pose and the calibration base. -/
structure FOSVRHMDState extends FOSVRHMD where
  CurHmdOrientation : FQuat
  CurHmdPosition : FVector
  LastHmdOrientation : FQuat
  LastHmdPosition : FVector
  BaseOrientation : FQuat
  BasePosition : FVector
deriving DecidableEq

/-- The engine's conversions between quaternions and rotators, and the rule by which
the yaw of the new base is obtained from the yaw component of the current orientation
and the `yaw` argument; the specification fixes none of the three, so they are
parameters of the model. -/
structure RotationConversions where
  Rotator : FQuat → FRotator
  Quaternion : FRotator → FQuat
  resetYaw : CFloat → CFloat → CFloat

/-- Modelled from the spec: the body of `FOSVRHMD::ResetOrientation(float yaw)`, which
is in `OSVRHMD.cpp` and not among the sources (only its declaration in `OSVRHMD.h` is).
The specification: sets base orientation to a pure yaw rotation derived from current
orientation's yaw component only (pitch/roll zeroed), leaving base position untouched. -/
def FOSVRHMDState.ResetOrientation (hmd : FOSVRHMDState) (rot : RotationConversions)
    (yaw : CFloat) : FOSVRHMDState :=
  { hmd with
    BaseOrientation :=
      rot.Quaternion
        { Pitch := 0,
          Yaw := rot.resetYaw (rot.Rotator hmd.CurHmdOrientation).Yaw yaw,
          Roll := 0 } }

/-- Modelled from the spec: the body of `FOSVRHMD::ResetPosition()`, which is in
`OSVRHMD.cpp` and not among the sources (only its declaration in `OSVRHMD.h` is).
The specification: sets base position to the current position, leaving base
orientation untouched. -/
def FOSVRHMDState.ResetPosition (hmd : FOSVRHMDState) : FOSVRHMDState :=
  { hmd with BasePosition := hmd.CurHmdPosition }

/-! ## Concrete inputs used to exercise the theorems -/

/-- A tracking client that cannot resolve `/controller/left/1`, resolves every other
path to a handle numbered by the length of the path, and refuses the analog
registration of the button at index 2. -/
def sampleKit : ClientKit where
  osvrClientCheckStatus := fun _ => OSVR_RETURN_SUCCESS
  osvrClientGetInterface := fun _ path =>
    if path = "/controller/left/1" then none else some path.length
  osvrRegisterButtonCallback := fun _ _ => OSVR_RETURN_SUCCESS
  osvrRegisterAnalogCallback := fun _ i =>
    if i = 2 then OSVR_RETURN_FAILURE else OSVR_RETURN_SUCCESS
  osvrGetPoseState := fun iface =>
    match iface with
    | some 14 => some { translation := ⟨1, 2, 3⟩, rotation := ⟨1, 0, 0, 0⟩ }
    | _ => none

/-- A small binding table: a digital button on the unresolvable path, a digital button
on a good path, an analog axis whose registration is refused, and a threshold binding
sharing the path of the second button. -/
def sampleTable : List OSVRButton :=
  [OSVRButton.ctor OSVR_BUTTON_TYPE_DIGITAL "FaceButton1" "/controller/left/1",
   OSVRButton.ctor OSVR_BUTTON_TYPE_DIGITAL "FaceButton2" "/controller/left/2",
   OSVRButton.ctor OSVR_BUTTON_TYPE_ANALOG "TriggerAxis" "/controller/left/trigger",
   OSVRButton.ctor OSVR_BUTTON_TYPE_THRESHOLD "Trigger" "/controller/left/2"]

/-- The double nearest to 0.1: 3602879701896397 / 2^55. -/
def tenthAsDouble : CDouble := 3602879701896397 / 36028797018963968

/-- A device with one valid analog binding, constructed with empty queues, that has
received the single sample `tenthAsDouble`. -/
def tenthDevice : FOSVRInputDevice :=
  { context := some 1, contextValid := true,
    osvrButtons :=
      [deliverAnalog
        (OSVRButton.ctor OSVR_BUTTON_TYPE_ANALOG "LeftAnalogX" "/controller/left/joystick/x")
        [tenthAsDouble]],
    interfaces := [], leftHand := none, rightHand := none,
    leftHandValid := false, rightHandValid := false }

theorem thresholdSignal_congr (b c : OSVRButton) (h1 : c.thresholdType = b.thresholdType)
    (h2 : c.threshold = b.threshold) (s : CFloat) :
    thresholdSignal c s = thresholdSignal b s := by
  simp [thresholdSignal, h1, h2]

/-- One `analogCallback` invocation on a threshold binding, field by field. -/
theorem analogCallback_threshold (b : OSVRButton) (s : CFloat)
    (hty : b.type = OSVR_BUTTON_TYPE_THRESHOLD) :
    (analogCallback b s).type = b.type ∧
    (analogCallback b s).thresholdType = b.thresholdType ∧
    (analogCallback b s).threshold = b.threshold ∧
    (analogCallback b s).oldState = thresholdSignal b s ∧
    (analogCallback b s).digitalStateQueue =
      b.digitalStateQueue ++
        (if thresholdSignal b s ≠ b.oldState then [thresholdSignal b s] else []) := by
  have hp : ((b.thresholdType == OSVR_THRESHOLD_TYPE_GT && decide (s > b.threshold)) ||
      (b.thresholdType == OSVR_THRESHOLD_TYPE_LT && decide (s < b.threshold))) =
      thresholdSignal b s := by
    cases hT : b.thresholdType <;> simp [thresholdSignal, hT]
  unfold analogCallback
  rw [if_pos hty]
  simp only [hp]
  by_cases hne : thresholdSignal b s = b.oldState
  · simp [hne]
  · simp [hne]

/-- What a run of `analogCallback` invocations keeps and what it remembers. -/
theorem deliverAnalog_threshold_fields (b : OSVRButton)
    (hty : b.type = OSVR_BUTTON_TYPE_THRESHOLD) (samples : List CFloat) :
    (deliverAnalog b samples).type = OSVR_BUTTON_TYPE_THRESHOLD ∧
    (deliverAnalog b samples).thresholdType = b.thresholdType ∧
    (deliverAnalog b samples).threshold = b.threshold ∧
    (deliverAnalog b samples).oldState =
      (samples.getLast?.map (thresholdSignal b)).getD b.oldState := by
  induction samples using List.reverseRecOn with
  | nil => simp [deliverAnalog, hty]
  | append_singleton pre s ih =>
    obtain ⟨h1, h2, h3, _⟩ := ih
    have hstep := analogCallback_threshold (deliverAnalog b pre) s h1
    have hfold : deliverAnalog b (pre ++ [s]) = analogCallback (deliverAnalog b pre) s := by
      simp [deliverAnalog, List.foldl_append]
    rw [hfold]
    obtain ⟨g1, g2, g3, g4, _⟩ := hstep
    refine ⟨g1.trans h1, g2.trans h2, g3.trans h3, ?_⟩
    rw [g4, thresholdSignal_congr b _ h2 h3]
    simp

/-- The queue after one more sample: the thresholded value is appended exactly when it
differs from the remembered one. -/
theorem deliverAnalog_threshold_snoc (b : OSVRButton)
    (hty : b.type = OSVR_BUTTON_TYPE_THRESHOLD) (pre : List CFloat) (s : CFloat) :
    (deliverAnalog b (pre ++ [s])).digitalStateQueue =
      (deliverAnalog b pre).digitalStateQueue ++
        (if thresholdSignal b s ≠ (pre.getLast?.map (thresholdSignal b)).getD b.oldState
          then [thresholdSignal b s] else []) := by
  obtain ⟨h1, h2, h3, h4⟩ := deliverAnalog_threshold_fields b hty pre
  have hfold : deliverAnalog b (pre ++ [s]) = analogCallback (deliverAnalog b pre) s := by
    simp [deliverAnalog, List.foldl_append]
  rw [hfold, (analogCallback_threshold (deliverAnalog b pre) s h1).2.2.2.2,
    thresholdSignal_congr b _ h2 h3, h4]

/-- The queue of a threshold binding alternates, starts with `true` and ends with the
remembered state. -/
theorem deliverAnalog_threshold_alternates (b : OSVRButton)
    (hty : b.type = OSVR_BUTTON_TYPE_THRESHOLD) (hold : b.oldState = false)
    (hq : b.digitalStateQueue = []) (samples : List CFloat) :
    (deliverAnalog b samples).digitalStateQueue.Chain' (fun x y => x ≠ y) ∧
    (deliverAnalog b samples).digitalStateQueue.getLast?.getD false =
      (samples.getLast?.map (thresholdSignal b)).getD false ∧
    (∀ x, (deliverAnalog b samples).digitalStateQueue.head? = some x → x = true) := by
  induction samples using List.reverseRecOn with
  | nil => simp [deliverAnalog, hq]
  | append_singleton pre s ih =>
    obtain ⟨hc, hl, hh⟩ := ih
    rw [deliverAnalog_threshold_snoc b hty pre s, hold]
    by_cases hne : thresholdSignal b s = (pre.getLast?.map (thresholdSignal b)).getD false
    · simp only [hne, ne_eq, not_true_eq_false, if_false, List.append_nil]
      refine ⟨hc, ?_, hh⟩
      rw [hl]; simp [hne]
    · simp only [ne_eq, hne, not_false_eq_true, if_true]
      refine ⟨?_, by simp, ?_⟩
      · rw [List.chain'_append]
        refine ⟨hc, by simp, ?_⟩
        intro x hx y hy
        simp only [List.head?_cons, Option.mem_def, Option.some.injEq] at hy
        subst hy
        have : (deliverAnalog b pre).digitalStateQueue.getLast?.getD false = x := by
          rw [Option.mem_def.mp hx]; rfl
        rw [hl] at this
        intro hxy
        exact hne (by rw [this, hxy])
      · intro x hx
        cases hq' : (deliverAnalog b pre).digitalStateQueue with
        | nil =>
          rw [hq'] at hx hl
          simp only [List.nil_append, List.head?_cons, Option.some.injEq] at hx
          simp only [List.getLast?_nil, Option.getD_none] at hl
          rw [← hl] at hne
          subst hx
          simpa using hne
        | cons y ys =>
          rw [hq'] at hx
          simp only [List.cons_append, List.head?_cons, Option.some.injEq] at hx
          exact hh x (by rw [hq']; simp [hx])

/-- C1: on a threshold binding that starts released with an empty digital queue, each
analog sample enqueues its thresholded value exactly when that value differs from the
thresholded value of the sample before it (false before the first sample); hence
the queue never holds two equal neighbours and starts with true; and for a
GreaterThan binding with threshold T and eps > 0 the samples T-eps, T+eps, T+2eps, T-eps
enqueue exactly true, false. -/
theorem C1_threshold_edge_triggered (b : OSVRButton)
    (hty : b.type = OSVR_BUTTON_TYPE_THRESHOLD) (hold : b.oldState = false)
    (hq : b.digitalStateQueue = []) :
    (deliverAnalog b []).digitalStateQueue = [] ∧
    (∀ (pre : List CFloat) (s : CFloat),
      (deliverAnalog b (pre ++ [s])).digitalStateQueue =
        (deliverAnalog b pre).digitalStateQueue ++
          (if thresholdSignal b s ≠ previousSignal b pre then [thresholdSignal b s]
            else [])) ∧
    (∀ samples : List CFloat,
      (deliverAnalog b samples).digitalStateQueue.Chain' (fun x y => x ≠ y)) ∧
    (∀ (samples : List CFloat) (x : Bool),
      (deliverAnalog b samples).digitalStateQueue.head? = some x → x = true) ∧
    (∀ T eps : CFloat, 0 < eps → b.thresholdType = OSVR_THRESHOLD_TYPE_GT →
      b.threshold = T →
      (deliverAnalog b [T - eps, T + eps, T + 2 * eps, T - eps]).digitalStateQueue =
        [true, false]) := by
  refine ⟨by simpa [deliverAnalog] using hq, ?_, ?_, ?_, ?_⟩
  · intro pre s
    have h := deliverAnalog_threshold_snoc b hty pre s
    rw [hold] at h
    exact h
  · intro samples
    exact (deliverAnalog_threshold_alternates b hty hold hq samples).1
  · intro samples x hx
    exact (deliverAnalog_threshold_alternates b hty hold hq samples).2.2 x hx
  · intro T eps heps hgt hth
    have e1 : ¬ (T < T - eps) := by linarith
    have e2 : T < T + eps := by linarith
    have e3 : T < T + 2 * eps := by linarith
    simp [deliverAnalog, analogCallback, hty, hold, hq, hgt, hth, e1, e2, e3]

/-- A Thumbstick_Right style binding (GreaterThan 1/4) fed 1/8, 3/8, 1/2, 1/8. -/
theorem C1_threshold_edge_triggered_witness :
    (0 : CFloat) < 1 / 8 ∧
    (deliverAnalog
      (OSVRButton.ctorThreshold OSVR_BUTTON_TYPE_THRESHOLD OSVR_THRESHOLD_TYPE_GT (1 / 4)
        "MotionController_Left_Thumbstick_Right" "/controller/left/joystick/x")
      [1 / 4 - 1 / 8, 1 / 4 + 1 / 8, 1 / 4 + 2 * (1 / 8), 1 / 4 - 1 / 8]).digitalStateQueue =
      [true, false] :=
  ⟨by norm_num,
    (C1_threshold_edge_triggered
      (OSVRButton.ctorThreshold OSVR_BUTTON_TYPE_THRESHOLD OSVR_THRESHOLD_TYPE_GT (1 / 4)
        "MotionController_Left_Thumbstick_Right" "/controller/left/joystick/x")
      rfl rfl rfl).2.2.2.2 (1 / 4) (1 / 8) (by norm_num) rfl rfl⟩

/-! ## The dispatcher drains every valid binding in order -/

theorem drainDigitalStateQueue_eq (key : FName) (q : List Bool) (sent : List Notification) :
    drainDigitalStateQueue key 0 q sent = ([], sent ++ q.map (digitalNotification key)) := by
  induction q generalizing sent with
  | nil => simp [drainDigitalStateQueue]
  | cons state rest ih =>
    rw [drainDigitalStateQueue, ih]
    simp [digitalNotification]

theorem drainAnalogStateQueue_eq (key : FName) (q : List CFloat) (sent : List Notification) :
    drainAnalogStateQueue key 0 q sent = ([], sent ++ q.map (OnControllerAnalog key 0)) := by
  induction q generalizing sent with
  | nil => simp [drainAnalogStateQueue]
  | cons state rest ih =>
    rw [drainAnalogStateQueue, ih]
    simp

theorem sendButtonEvents_eq (b : OSVRButton) (sent : List Notification) :
    sendButtonEvents 0 b sent =
      (afterDispatch b, sent ++ (if b.isValid then bindingNotifications b else [])) := by
  unfold sendButtonEvents afterDispatch
  by_cases hv : b.isValid = true
  · simp [hv, drainDigitalStateQueue_eq, drainAnalogStateQueue_eq, bindingNotifications]
  · simp [hv]

theorem expectedNotifications_cons (b : OSVRButton) (bs : List OSVRButton) :
    expectedNotifications (b :: bs) =
      (if b.isValid then bindingNotifications b else []) ++ expectedNotifications bs := by
  unfold expectedNotifications
  by_cases hv : b.isValid = true
  · simp [hv]
  · simp [hv]

theorem expectedNotifications_append (xs ys : List OSVRButton) :
    expectedNotifications (xs ++ ys) = expectedNotifications xs ++ expectedNotifications ys := by
  simp [expectedNotifications]

theorem sendButtonsLoop_eq (bs : List OSVRButton) (sent : List Notification) :
    sendButtonsLoop 0 bs sent = (bs.map afterDispatch, sent ++ expectedNotifications bs) := by
  induction bs generalizing sent with
  | nil => simp [sendButtonsLoop, expectedNotifications]
  | cons b rest ih =>
    simp only [sendButtonsLoop, sendButtonEvents_eq, ih, expectedNotifications_cons,
      List.map_cons, List.append_assoc]

theorem SendControllerEvents_eq (d : FOSVRInputDevice) :
    d.SendControllerEvents =
      ({ d with osvrButtons := d.osvrButtons.map afterDispatch },
        expectedNotifications d.osvrButtons) := by
  simp [FOSVRInputDevice.SendControllerEvents, sendButtonsLoop_eq]

theorem deliverAnalog_not_threshold (b : OSVRButton)
    (hty : b.type ≠ OSVR_BUTTON_TYPE_THRESHOLD) (samples : List CFloat) :
    deliverAnalog b samples =
      { b with analogStateQueue := b.analogStateQueue ++ samples.map doubleToFloat } := by
  induction samples using List.reverseRecOn with
  | nil => simp [deliverAnalog]
  | append_singleton pre s ih =>
    have hfold : deliverAnalog b (pre ++ [s]) = analogCallback (deliverAnalog b pre) s := by
      simp [deliverAnalog, List.foldl_append]
    rw [hfold, ih]
    simp [analogCallback, hty]

theorem deliverButton_eq (b : OSVRButton) (states : List OSVR_ButtonState) :
    deliverButton b states =
      { b with digitalStateQueue :=
          b.digitalStateQueue ++ states.map (fun s => s == OSVR_BUTTON_PRESSED) } := by
  induction states using List.reverseRecOn with
  | nil => simp [deliverButton]
  | append_singleton pre s ih =>
    have hfold : deliverButton b (pre ++ [s]) = buttonCallback (deliverButton b pre) s := by
      simp [deliverButton, List.foldl_append]
    rw [hfold, ih]
    simp [buttonCallback]

/-! ### The narrowing of a double sample to float -/

/-- The exponent search finds the binade of a magnitude. -/
theorem floatExponentFrom_eq (fuel : Nat) :
    ∀ (e0 e : ℤ) (a : ℚ), e0 ≤ e → e ≤ e0 + fuel →
      (e0 < e → (2 : ℚ) ^ e ≤ a) → a < (2 : ℚ) ^ (e + 1) →
      floatExponentFrom fuel e0 a = e := by
  induction fuel with
  | zero =>
    intro e0 e a h1 h2 _ _
    simp only [floatExponentFrom]
    simp only [Nat.cast_zero, add_zero] at h2
    omega
  | succ n ih =>
    intro e0 e a h1 h2 hlo hhi
    simp only [floatExponentFrom]
    by_cases hc : (2 : ℚ) ^ (e0 + 1) ≤ a
    · rw [if_pos hc]
      have hlt : (2 : ℚ) ^ (e0 + 1) < (2 : ℚ) ^ (e + 1) := lt_of_le_of_lt hc hhi
      have hstep : e0 + 1 < e + 1 := by
        by_contra hcon
        push_neg at hcon
        have := zpow_le_zpow_right₀ (by norm_num : (1 : ℚ) ≤ 2) hcon
        linarith
      exact ih (e0 + 1) e a (by omega) (by push_cast at h2 ⊢; omega)
        (fun _ => hlo (by omega)) hhi
    · rw [if_neg hc]
      by_contra hne
      have hlt : e0 < e := by omega
      have h3 := hlo hlt
      have := zpow_le_zpow_right₀ (by norm_num : (1 : ℚ) ≤ 2) (show e0 + 1 ≤ e by omega)
      exact hc (le_trans this h3)

theorem floatExponent_eq (a : ℚ) (e : ℤ) (h1 : -126 ≤ e) (h2 : e ≤ 127)
    (hlo : -126 < e → (2 : ℚ) ^ e ≤ a) (hhi : a < (2 : ℚ) ^ (e + 1)) :
    floatExponent a = e :=
  floatExponentFrom_eq 253 (-126) e a h1 (by norm_num; omega) hlo hhi

/-- The value 1/2 is a float. -/
theorem doubleToFloat_half : doubleToFloat (1 / 2) = 1 / 2 := by
  have he : floatExponent |(1 / 2 : ℚ)| = -1 := by
    apply floatExponent_eq _ _ (by norm_num) (by norm_num)
    · intro _; rw [abs_of_pos (by norm_num)]; norm_num
    · rw [abs_of_pos (by norm_num)]; norm_num
  have hf : ⌊(1 / 2 : ℚ) / 2 ^ ((-1 : ℤ) - 23)⌋ = 8388608 := by
    rw [Int.floor_eq_iff]; norm_num
  unfold doubleToFloat
  simp only [he]
  unfold roundHalfEven
  rw [hf]
  norm_num

/-- The value -1 is a float. -/
theorem doubleToFloat_neg_one : doubleToFloat (-1) = -1 := by
  have he : floatExponent |(-1 : ℚ)| = 0 := by
    apply floatExponent_eq _ _ (by norm_num) (by norm_num)
    · intro _; norm_num
    · norm_num
  have hf : ⌊(-1 : ℚ) / 2 ^ ((0 : ℤ) - 23)⌋ = -8388608 := by
    rw [Int.floor_eq_iff]; norm_num
  unfold doubleToFloat
  simp only [he]
  unfold roundHalfEven
  rw [hf]
  norm_num

/-- The double nearest to 0.1, which is 3602879701896397 / 2^55, narrows to the float
nearest to 0.1, which is 13421773 / 2^27 (0.100000001490116...). -/
theorem doubleToFloat_tenth :
    doubleToFloat (3602879701896397 / 36028797018963968) = 13421773 / 134217728 := by
  have he : floatExponent |(3602879701896397 / 36028797018963968 : ℚ)| = -4 := by
    apply floatExponent_eq _ _ (by norm_num) (by norm_num)
    · intro _; rw [abs_of_pos (by norm_num)]; norm_num
    · rw [abs_of_pos (by norm_num)]; norm_num
  have hf : ⌊(3602879701896397 / 36028797018963968 : ℚ) / 2 ^ ((-4 : ℤ) - 23)⌋ =
      13421772 := by
    rw [Int.floor_eq_iff]; norm_num
  unfold doubleToFloat
  simp only [he]
  unfold roundHalfEven
  rw [hf]
  norm_num

/-- C2 (amended): a valid Analog binding with empty queues that received N analog
samples makes the next SendControllerEvents emit, at that binding's place in the
dispatch order, exactly N OnControllerAnalog calls, one per sample in push order (key of
the binding, controller 0), each carrying its sample narrowed from double to float, and
nothing else for it. -/
theorem C2_analog_samples_all_dispatched (d : FOSVRInputDevice)
    (before after : List OSVRButton) (b : OSVRButton) (samples : List CDouble)
    (hty : b.type = OSVR_BUTTON_TYPE_ANALOG) (hv : b.isValid = true)
    (hdq : b.digitalStateQueue = []) (haq : b.analogStateQueue = [])
    (hd : d.osvrButtons = before ++ deliverAnalog b samples :: after) :
    d.SendControllerEvents.2 =
      ({ d with osvrButtons := before } : FOSVRInputDevice).SendControllerEvents.2 ++
        samples.map (fun s => OnControllerAnalog b.key 0 (doubleToFloat s)) ++
        ({ d with osvrButtons := after } : FOSVRInputDevice).SendControllerEvents.2 ∧
    (samples.map (fun s => OnControllerAnalog b.key 0 (doubleToFloat s))).length =
      samples.length := by
  have hne : b.type ≠ OSVR_BUTTON_TYPE_THRESHOLD := by rw [hty]; decide
  refine ⟨?_, by simp⟩
  simp only [SendControllerEvents_eq, hd, expectedNotifications_append,
    expectedNotifications_cons, deliverAnalog_not_threshold b hne]
  simp [hv, bindingNotifications, hdq, haq]

/-- An analog thumbstick binding fed 1/2, the double nearest 0.1 and -1, after a digital
binding: three calls in push order, the middle one with the float nearest 0.1. -/
theorem C2_analog_samples_all_dispatched_witness :
    ({ context := some 1, contextValid := true,
       osvrButtons :=
        [OSVRButton.ctor OSVR_BUTTON_TYPE_DIGITAL "SpecialLeft" "/controller/left/middle"] ++
          deliverAnalog
            (OSVRButton.ctor OSVR_BUTTON_TYPE_ANALOG "LeftAnalogX" "/controller/left/joystick/x")
            [1 / 2, 3602879701896397 / 36028797018963968, -1] :: [],
       interfaces := [], leftHand := none, rightHand := none,
       leftHandValid := false, rightHandValid := false } :
      FOSVRInputDevice).SendControllerEvents.2 =
      [OnControllerAnalog "LeftAnalogX" 0 (1 / 2),
        OnControllerAnalog "LeftAnalogX" 0 (13421773 / 134217728),
        OnControllerAnalog "LeftAnalogX" 0 (-1)] := by
  have h := (C2_analog_samples_all_dispatched
    { context := some 1, contextValid := true,
      osvrButtons :=
        [OSVRButton.ctor OSVR_BUTTON_TYPE_DIGITAL "SpecialLeft" "/controller/left/middle"] ++
          deliverAnalog
            (OSVRButton.ctor OSVR_BUTTON_TYPE_ANALOG "LeftAnalogX" "/controller/left/joystick/x")
            [1 / 2, 3602879701896397 / 36028797018963968, -1] :: [],
      interfaces := [], leftHand := none, rightHand := none,
      leftHandValid := false, rightHandValid := false }
    [OSVRButton.ctor OSVR_BUTTON_TYPE_DIGITAL "SpecialLeft" "/controller/left/middle"] []
    (OSVRButton.ctor OSVR_BUTTON_TYPE_ANALOG "LeftAnalogX" "/controller/left/joystick/x")
    [1 / 2, 3602879701896397 / 36028797018963968, -1] rfl rfl rfl rfl rfl).1
  rw [h]
  simp only [List.map_cons, List.map_nil, doubleToFloat_half, doubleToFloat_tenth,
    doubleToFloat_neg_one]
  simp [FOSVRInputDevice.SendControllerEvents, sendButtonsLoop, sendButtonEvents,
    drainDigitalStateQueue, drainAnalogStateQueue, OSVRButton.ctor]

/-- C2 as first stated fails: a valid Analog binding with empty queues that received
the single sample 3602879701896397 / 2^55 (the double nearest 0.1) makes the next
SendControllerEvents emit one OnControllerAnalog call whose value is 13421773 / 2^27,
not the sample. -/
theorem C2_emitted_value_is_not_the_sample :
    tenthDevice.SendControllerEvents.2 =
      [OnControllerAnalog "LeftAnalogX" 0 (13421773 / 134217728)] ∧
    tenthDevice.SendControllerEvents.2 ≠
      [tenthAsDouble].map (OnControllerAnalog "LeftAnalogX" 0) := by
  have hne : (OSVRButton.ctor OSVR_BUTTON_TYPE_ANALOG "LeftAnalogX"
      "/controller/left/joystick/x").type ≠ OSVR_BUTTON_TYPE_THRESHOLD := by decide
  have hout : tenthDevice.SendControllerEvents.2 =
      [OnControllerAnalog "LeftAnalogX" 0 (13421773 / 134217728)] := by
    simp only [tenthDevice, tenthAsDouble, SendControllerEvents_eq,
      deliverAnalog_not_threshold _ hne, List.map_cons, List.map_nil, doubleToFloat_tenth]
    simp [expectedNotifications, bindingNotifications, OSVRButton.ctor]
  refine ⟨hout, ?_⟩
  rw [hout]
  simp only [tenthAsDouble, List.map_cons, List.map_nil, ne_eq, List.cons.injEq, and_true,
    Notification.OnControllerAnalog.injEq, true_and]
  norm_num

/-- C3: the notifications of one SendControllerEvents call are the concatenation, over
the valid bindings in list order, of the binding's digital events in FIFO order followed
by its analog events in FIFO order; an invalid binding adds nothing and is left
unchanged, queues included. -/
theorem C3_dispatch_order (d : FOSVRInputDevice) :
    d.SendControllerEvents.2 = expectedNotifications d.osvrButtons ∧
    d.SendControllerEvents.1.osvrButtons.length = d.osvrButtons.length ∧
    (∀ (i : Nat) (b : OSVRButton), d.osvrButtons[i]? = some b → b.isValid = false →
      d.SendControllerEvents.1.osvrButtons[i]? = some b) ∧
    (∀ (before after : List OSVRButton) (b : OSVRButton),
      d.osvrButtons = before ++ b :: after → b.isValid = false →
      d.SendControllerEvents.2 =
        ({ d with osvrButtons := before } : FOSVRInputDevice).SendControllerEvents.2 ++
        ({ d with osvrButtons := after } : FOSVRInputDevice).SendControllerEvents.2) := by
  refine ⟨by simp [SendControllerEvents_eq], by simp [SendControllerEvents_eq], ?_, ?_⟩
  · intro i b hb hv
    simp [SendControllerEvents_eq, List.getElem?_map, hb, afterDispatch, hv]
  · intro before after b hd hv
    simp [SendControllerEvents_eq, hd, expectedNotifications_append,
      expectedNotifications_cons, hv]

/-- C4: a valid Digital binding with empty queues that received a sequence of button
reports makes the next SendControllerEvents emit, at that binding's place in the
dispatch order, one call per report in report order: OnControllerButtonPressed when the
report state is OSVR_BUTTON_PRESSED and OnControllerButtonReleased otherwise, with the
binding's key and controller index 0; equal neighbouring states are all kept. -/
theorem C4_button_reports_all_dispatched (d : FOSVRInputDevice)
    (before after : List OSVRButton) (b : OSVRButton) (states : List OSVR_ButtonState)
    (_hty : b.type = OSVR_BUTTON_TYPE_DIGITAL) (hv : b.isValid = true)
    (hdq : b.digitalStateQueue = []) (haq : b.analogStateQueue = [])
    (hd : d.osvrButtons = before ++ deliverButton b states :: after) :
    d.SendControllerEvents.2 =
      ({ d with osvrButtons := before } : FOSVRInputDevice).SendControllerEvents.2 ++
        states.map (fun s =>
          if s = OSVR_BUTTON_PRESSED then OnControllerButtonPressed b.key 0 false
          else OnControllerButtonReleased b.key 0 false) ++
        ({ d with osvrButtons := after } : FOSVRInputDevice).SendControllerEvents.2 ∧
    (states.map (fun s =>
          if s = OSVR_BUTTON_PRESSED then OnControllerButtonPressed b.key 0 false
          else OnControllerButtonReleased b.key 0 false)).length = states.length := by
  refine ⟨?_, by simp⟩
  simp only [SendControllerEvents_eq, hd, expectedNotifications_append,
    expectedNotifications_cons, deliverButton_eq]
  simp [hv, bindingNotifications, hdq, haq, digitalNotification]

/-- A digital binding that received pressed, pressed, released (state bytes 1, 1, 0). -/
theorem C4_button_reports_all_dispatched_witness :
    ({ context := some 1, contextValid := true,
       osvrButtons :=
        [] ++ deliverButton
            (OSVRButton.ctor OSVR_BUTTON_TYPE_DIGITAL "FaceButtonTop" "/controller/right/4")
            [1, 1, 0] :: [],
       interfaces := [], leftHand := none, rightHand := none,
       leftHandValid := false, rightHandValid := false } :
      FOSVRInputDevice).SendControllerEvents.2 =
      [OnControllerButtonPressed "FaceButtonTop" 0 false,
        OnControllerButtonPressed "FaceButtonTop" 0 false,
        OnControllerButtonReleased "FaceButtonTop" 0 false] := by
  have h := (C4_button_reports_all_dispatched
    { context := some 1, contextValid := true,
      osvrButtons :=
        [] ++ deliverButton
            (OSVRButton.ctor OSVR_BUTTON_TYPE_DIGITAL "FaceButtonTop" "/controller/right/4")
            [1, 1, 0] :: [],
      interfaces := [], leftHand := none, rightHand := none,
      leftHandValid := false, rightHandValid := false }
    [] []
    (OSVRButton.ctor OSVR_BUTTON_TYPE_DIGITAL "FaceButtonTop" "/controller/right/4")
    [1, 1, 0] rfl rfl rfl rfl rfl).1
  rw [h]
  simp [FOSVRInputDevice.SendControllerEvents, sendButtonsLoop, OSVRButton.ctor,
    OSVR_BUTTON_PRESSED]

/-- C5: SendControllerEvents is a total function of the device state (every queue is
finite and each loop iteration pops one element); after it both queues of every valid
binding are empty, validity flags are as before, and the number of notifications equals
the number of samples that were queued on valid bindings. -/
theorem C5_dispatch_drains_everything (d : FOSVRInputDevice) :
    (∃ r : FOSVRInputDevice × List Notification, d.SendControllerEvents = r) ∧
    (∀ b ∈ d.SendControllerEvents.1.osvrButtons, b.isValid = true →
      b.digitalStateQueue = [] ∧ b.analogStateQueue = []) ∧
    d.SendControllerEvents.1.osvrButtons.map (fun b => b.isValid) =
      d.osvrButtons.map (fun b => b.isValid) ∧
    d.SendControllerEvents.2.length =
      ((d.osvrButtons.filter (fun b => b.isValid)).map queuedSamples).sum := by
  refine ⟨⟨_, rfl⟩, ?_, ?_, ?_⟩
  · intro b hb hv
    simp only [SendControllerEvents_eq, List.mem_map] at hb
    obtain ⟨a, _, rfl⟩ := hb
    unfold afterDispatch at hv ⊢
    by_cases ha : a.isValid = true
    · simp [ha]
    · simp [ha] at hv
  · simp only [SendControllerEvents_eq, List.map_map]
    apply List.map_congr_left
    intro a _
    by_cases ha : a.isValid = true <;> simp [afterDispatch, ha]
  · simp only [SendControllerEvents_eq]
    induction d.osvrButtons with
    | nil => simp [expectedNotifications]
    | cons a rest ih =>
      rw [expectedNotifications_cons, List.length_append, ih]
      by_cases ha : a.isValid = true
      · simp [ha, bindingNotifications, queuedSamples]
      · simp [ha]

/-! ## The binding-setup loop of the constructor -/

theorem InterfaceMap.assign_of_lookup_none (m : InterfaceMap) (path : String)
    (iface : OSVR_ClientInterface) (h : m.lookup path = none) :
    m.assign path iface = m ++ [(path, iface)] := by
  simp [InterfaceMap.assign, h]

/-- The registration half of the loop body on a button that is still valid. -/
theorem registerButtonCallbacks_valid (kit : ClientKit) (i : Nat) (s : SetupStep)
    (hv : s.button.isValid = true) :
    (registerButtonCallbacks kit i s).button =
      { s.button with
        isValid := decide (registrationOutcome kit s.button.type s.iface i
          = OSVR_RETURN_SUCCESS) } ∧
    (registerButtonCallbacks kit i s).iface = s.iface ∧
    (registerButtonCallbacks kit i s).interfaces = s.interfaces ∧
    (registerButtonCallbacks kit i s).calls =
      s.calls ++ [expectedRegistration kit s.button.type s.iface i] := by
  rcases s with ⟨⟨o, v, th, k, p, ty, tt, dq, aq⟩, iface, m, calls⟩
  simp only at hv
  subst hv
  unfold registerButtonCallbacks
  cases ty
  · cases hrc : kit.osvrRegisterButtonCallback iface i <;>
      simp [hrc, registrationOutcome, expectedRegistration]
  · cases hrc : kit.osvrRegisterAnalogCallback iface i <;>
      simp [hrc, registrationOutcome, expectedRegistration]
  · cases hrc : kit.osvrRegisterAnalogCallback iface i <;>
      simp [hrc, registrationOutcome, expectedRegistration]

theorem registerButtonCallbacks_invalid (kit : ClientKit) (i : Nat) (s : SetupStep)
    (hv : s.button.isValid = false) : registerButtonCallbacks kit i s = s := by
  simp [registerButtonCallbacks, hv]

theorem successfulResolves_append (xs ys : List ClientCall) :
    successfulResolves (xs ++ ys) = successfulResolves xs ++ successfulResolves ys := by
  induction xs with
  | nil => simp [successfulResolves]
  | cons c rest ih =>
    cases c with
    | getInterface path result =>
      cases result <;> simp [successfulResolves, ih]
    | _ => simp [successfulResolves, ih]

theorem successfulResolves_expectedRegistration (kit : ClientKit) (type : OSVRButtonType)
    (iface : OSVR_ClientInterface) (i : Nat) :
    successfulResolves [expectedRegistration kit type iface i] = [] := by
  cases type <;> simp [expectedRegistration, successfulResolves]

theorem registrationResult_expectedRegistration (kit : ClientKit) (type : OSVRButtonType)
    (iface : OSVR_ClientInterface) (i : Nat) :
    (expectedRegistration kit type iface i).registrationResult =
      some (registrationOutcome kit type iface i) := by
  cases type <;> simp [expectedRegistration, registrationOutcome, ClientCall.registrationResult]

/-- The loop body when the path is already in the map: no resolve call, the stored
handle is the one registered on. -/
theorem setupButton_found (kit : ClientKit) (context : OSVR_ClientContext) (i : Nat)
    (b : OSVRButton) (m : InterfaceMap) (stored : OSVR_ClientInterface)
    (hl : m.lookup b.ifacePath = some stored) (hv : b.isValid = true) :
    setupButton kit context i b m =
      { button := { b with isValid := decide (registrationOutcome kit b.type stored i
          = OSVR_RETURN_SUCCESS) },
        iface := stored, interfaces := m,
        calls := [expectedRegistration kit b.type stored i] } := by
  have hr : resolveButtonInterface kit context b m =
      { button := b, iface := stored, interfaces := m, calls := [] } := by
    simp [resolveButtonInterface, hl]
  obtain ⟨h1, h2, h3, h4⟩ := registerButtonCallbacks_valid kit i
    { button := b, iface := stored, interfaces := m, calls := [] } hv
  unfold setupButton
  rw [hr]
  cases hreg : registerButtonCallbacks kit i
    { button := b, iface := stored, interfaces := m, calls := [] } with
  | mk b' iface' m' calls' =>
    rw [hreg] at h1 h2 h3 h4
    simp only at h1 h2 h3 h4
    simp [h1, h2, h3, h4]

/-- The loop body when the path is not in the map and the client resolves it: one
resolve call, a new map entry, then the registration. -/
theorem setupButton_resolved (kit : ClientKit) (context : OSVR_ClientContext) (i : Nat)
    (b : OSVRButton) (m : InterfaceMap) (h : Nat)
    (hl : m.lookup b.ifacePath = none)
    (hg : kit.osvrClientGetInterface context b.ifacePath = some h)
    (hv : b.isValid = true) :
    setupButton kit context i b m =
      { button := { b with isValid := decide (registrationOutcome kit b.type (some h) i
          = OSVR_RETURN_SUCCESS) },
        iface := some h, interfaces := m ++ [(b.ifacePath, some h)],
        calls := [getInterface b.ifacePath (some h),
          expectedRegistration kit b.type (some h) i] } := by
  have hr : resolveButtonInterface kit context b m =
      { button := b, iface := some h, interfaces := m ++ [(b.ifacePath, some h)],
        calls := [getInterface b.ifacePath (some h)] } := by
    simp [resolveButtonInterface, hl, hg, InterfaceMap.assign_of_lookup_none]
  obtain ⟨h1, h2, h3, h4⟩ := registerButtonCallbacks_valid kit i
    { button := b, iface := some h, interfaces := m ++ [(b.ifacePath, some h)],
      calls := [getInterface b.ifacePath (some h)] } hv
  unfold setupButton
  rw [hr]
  cases hreg : registerButtonCallbacks kit i
    { button := b, iface := some h, interfaces := m ++ [(b.ifacePath, some h)],
      calls := [getInterface b.ifacePath (some h)] } with
  | mk b' iface' m' calls' =>
    rw [hreg] at h1 h2 h3 h4
    simp only at h1 h2 h3 h4
    simp [h1, h2, h3, h4]

/-- The loop body when the path is not in the map and the client fails to resolve it:
the button is marked invalid and nothing is registered. -/
theorem setupButton_unresolved (kit : ClientKit) (context : OSVR_ClientContext) (i : Nat)
    (b : OSVRButton) (m : InterfaceMap)
    (hl : m.lookup b.ifacePath = none)
    (hg : kit.osvrClientGetInterface context b.ifacePath = none) :
    setupButton kit context i b m =
      { button := { b with isValid := false }, iface := none, interfaces := m,
        calls := [getInterface b.ifacePath none] } := by
  have hr : resolveButtonInterface kit context b m =
      { button := { b with isValid := false }, iface := none, interfaces := m,
        calls := [getInterface b.ifacePath none] } := by
    simp [resolveButtonInterface, hl, hg]
  unfold setupButton
  rw [hr]
  exact registerButtonCallbacks_invalid kit i _ rfl

/-- The loop body on an invalid button whose path is in the map changes nothing. -/
theorem setupButton_found_invalid (kit : ClientKit) (context : OSVR_ClientContext)
    (i : Nat) (b : OSVRButton) (m : InterfaceMap) (stored : OSVR_ClientInterface)
    (hl : m.lookup b.ifacePath = some stored) (hv : b.isValid = false) :
    setupButton kit context i b m =
      { button := b, iface := stored, interfaces := m, calls := [] } := by
  have hr : resolveButtonInterface kit context b m =
      { button := b, iface := stored, interfaces := m, calls := [] } := by
    simp [resolveButtonInterface, hl]
  unfold setupButton
  rw [hr]
  exact registerButtonCallbacks_invalid kit i _ hv

/-- The loop body on an invalid button whose path the client resolves: the handle is
stored, nothing is registered. -/
theorem setupButton_resolved_invalid (kit : ClientKit) (context : OSVR_ClientContext)
    (i : Nat) (b : OSVRButton) (m : InterfaceMap) (h : Nat)
    (hl : m.lookup b.ifacePath = none)
    (hg : kit.osvrClientGetInterface context b.ifacePath = some h)
    (hv : b.isValid = false) :
    setupButton kit context i b m =
      { button := b, iface := some h, interfaces := m ++ [(b.ifacePath, some h)],
        calls := [getInterface b.ifacePath (some h)] } := by
  have hr : resolveButtonInterface kit context b m =
      { button := b, iface := some h, interfaces := m ++ [(b.ifacePath, some h)],
        calls := [getInterface b.ifacePath (some h)] } := by
    simp [resolveButtonInterface, hl, hg, InterfaceMap.assign_of_lookup_none]
  unfold setupButton
  rw [hr]
  exact registerButtonCallbacks_invalid kit i _ hv

theorem InterfaceMap.Sound_append (kit : ClientKit) (context : OSVR_ClientContext)
    (m : InterfaceMap) (path : String) (h : Nat) (hs : InterfaceMap.Sound kit context m)
    (hg : kit.osvrClientGetInterface context path = some h) :
    InterfaceMap.Sound kit context (m ++ [(path, some h)]) := by
  intro q v hq
  rw [List.lookup_append] at hq
  cases hm : m.lookup q with
  | some w =>
    rw [hm] at hq
    simp only [Option.or_some, Option.some.injEq] at hq
    subst hq
    exact hs q w hm
  | none =>
    rw [hm] at hq
    simp only [Option.none_or, List.lookup_cons, List.lookup_nil] at hq
    by_cases hqp : q = path
    · subst hqp
      simp only [beq_self_eq_true, Option.some.injEq] at hq
      exact ⟨h, hq.symm, hg⟩
    · have : (q == path) = false := by simpa using hqp
      simp [this] at hq

/-- One iteration of the setup loop on a fresh (valid) button, over a sound map. -/
theorem setupButton_valid_spec (kit : ClientKit) (context : OSVR_ClientContext) (i : Nat)
    (b : OSVRButton) (m : InterfaceMap) (hs : InterfaceMap.Sound kit context m)
    (hv : b.isValid = true) :
    (setupButton kit context i b m).button =
      { b with isValid := (setupButton kit context i b m).button.isValid } ∧
    ((setupButton kit context i b m).button.isValid = true ↔
      ∃ h, kit.osvrClientGetInterface context b.ifacePath = some h ∧
        registrationOutcome kit b.type (some h) i = OSVR_RETURN_SUCCESS) ∧
    InterfaceMap.Sound kit context (setupButton kit context i b m).interfaces ∧
    (∀ h, kit.osvrClientGetInterface context b.ifacePath = some h →
      expectedRegistration kit b.type (some h) i ∈ (setupButton kit context i b m).calls) := by
  cases hl : m.lookup b.ifacePath with
  | none =>
    cases hg : kit.osvrClientGetInterface context b.ifacePath with
    | none =>
      rw [setupButton_unresolved kit context i b m hl hg]
      exact ⟨rfl, by simp, hs, by simp⟩
    | some h =>
      rw [setupButton_resolved kit context i b m h hl hg hv]
      exact ⟨rfl, by simp, InterfaceMap.Sound_append kit context m _ h hs hg, by simp⟩
  | some stored =>
    obtain ⟨h0, rfl, hg⟩ := hs _ _ hl
    rw [setupButton_found kit context i b m (some h0) hl hv]
    refine ⟨rfl, by simp [hg], hs, ?_⟩
    intro h hh
    rw [hg] at hh
    simp only [Option.some.injEq] at hh
    subst hh
    simp

/-- The setup loop over fresh buttons: it processes every button, and decides each
button's validity from that button's own path and registration. -/
theorem setupButtonsLoop_valid_spec (kit : ClientKit) (context : OSVR_ClientContext)
    (bs : List OSVRButton) :
    ∀ (i : Nat) (m : InterfaceMap), InterfaceMap.Sound kit context m →
      (∀ b ∈ bs, b.isValid = true) →
      InterfaceMap.Sound kit context (setupButtonsLoop kit context i bs m).interfaces ∧
      (setupButtonsLoop kit context i bs m).osvrButtons.length = bs.length ∧
      ∀ (j : Nat) (b : OSVRButton), bs[j]? = some b →
        ∃ b', (setupButtonsLoop kit context i bs m).osvrButtons[j]? = some b' ∧
          b' = { b with isValid := b'.isValid } ∧
          (b'.isValid = true ↔
            ∃ h, kit.osvrClientGetInterface context b.ifacePath = some h ∧
              registrationOutcome kit b.type (some h) (i + j) = OSVR_RETURN_SUCCESS) ∧
          (∀ h, kit.osvrClientGetInterface context b.ifacePath = some h →
            expectedRegistration kit b.type (some h) (i + j) ∈
              (setupButtonsLoop kit context i bs m).calls) := by
  induction bs with
  | nil =>
    intro i m hs _
    exact ⟨hs, rfl, by simp⟩
  | cons a rest ih =>
    intro i m hs hfresh
    obtain ⟨s1, s2, s3, s4⟩ :=
      setupButton_valid_spec kit context i a m hs (hfresh a (List.mem_cons_self _ _))
    obtain ⟨r1, r2, r3⟩ := ih (i + 1) (setupButton kit context i a m).interfaces s3
      (fun b hb => hfresh b (List.mem_cons_of_mem _ hb))
    refine ⟨r1, by simp [setupButtonsLoop, r2], ?_⟩
    intro j b hb
    cases j with
    | zero =>
      simp only [List.getElem?_cons_zero, Option.some.injEq] at hb
      subst hb
      refine ⟨(setupButton kit context i a m).button, by simp [setupButtonsLoop], s1, s2, ?_⟩
      intro h hh
      simp only [setupButtonsLoop, List.mem_append]
      exact Or.inl (s4 h hh)
    | succ k =>
      simp only [List.getElem?_cons_succ] at hb
      obtain ⟨b', e1, e2, e3, e4⟩ := r3 k b hb
      have hidx : i + (k + 1) = i + 1 + k := by omega
      refine ⟨b', by simpa [setupButtonsLoop] using e1, e2, ?_, ?_⟩
      · rw [hidx]; exact e3
      · intro h hh
        rw [hidx]
        simp only [setupButtonsLoop, List.mem_append]
        exact Or.inr (e4 h hh)

/-- The constructor when the context is there and reports success. -/
theorem ctorWith_of_valid (kit : ClientKit) (context : OSVR_ClientContext)
    (table : List OSVRButton) (h1 : context.isSome = true)
    (h2 : kit.osvrClientCheckStatus context = OSVR_RETURN_SUCCESS) :
    FOSVRInputDevice.ctorWith kit context table =
      ({ context := context, contextValid := true,
         osvrButtons := (setupButtonsLoop kit context 0 table []).osvrButtons,
         interfaces := (setupButtonsLoop kit context 0 table []).interfaces,
         leftHand := kit.osvrClientGetInterface context "/me/hands/left",
         rightHand := kit.osvrClientGetInterface context "/me/hands/right",
         leftHandValid := (kit.osvrClientGetInterface context "/me/hands/left").isSome,
         rightHandValid := (kit.osvrClientGetInterface context "/me/hands/right").isSome },
       (setupButtonsLoop kit context 0 table []).calls ++
         [getInterface "/me/hands/left" (kit.osvrClientGetInterface context "/me/hands/left"),
          getInterface "/me/hands/right"
            (kit.osvrClientGetInterface context "/me/hands/right"),
          registerModularFeature, addMotionControllerDevice]) := by
  simp [FOSVRInputDevice.ctorWith, h1, h2]

/-- The constructor when the context is null or does not report success. -/
theorem ctorWith_of_invalid (kit : ClientKit) (context : OSVR_ClientContext)
    (table : List OSVRButton)
    (h : context = none ∨ kit.osvrClientCheckStatus context ≠ OSVR_RETURN_SUCCESS) :
    FOSVRInputDevice.ctorWith kit context table =
      ({ context := context, contextValid := false,
         osvrButtons := [], interfaces := [], leftHand := none, rightHand := none,
         leftHandValid := false, rightHandValid := false }, []) := by
  rcases h with h | h
  · subst h
    simp [FOSVRInputDevice.ctorWith]
  · simp [FOSVRInputDevice.ctorWith, h]

/-- C6: after the constructor's setup loop over a table of freshly constructed
bindings, with the tracking client an oracle, every binding of the table has been
processed, only its validity flag may have changed, and it is valid exactly when its own
path resolves and its own registration (button callback for Digital, analog callback for
Analog and Threshold) succeeds; a binding whose path resolves has had that registration
made, and a valid binding has whatever is queued on it dispatched by the loop body of
SendControllerEvents. -/
theorem C6_setup_validity_per_binding (kit : ClientKit) (context : OSVR_ClientContext)
    (table : List OSVRButton) (hctx : context.isSome = true)
    (hstatus : kit.osvrClientCheckStatus context = OSVR_RETURN_SUCCESS)
    (hfresh : ∀ b ∈ table, b.isValid = true) :
    (FOSVRInputDevice.ctorWith kit context table).1.osvrButtons.length = table.length ∧
    ∀ (i : Nat) (b : OSVRButton), table[i]? = some b →
      ∃ b', (FOSVRInputDevice.ctorWith kit context table).1.osvrButtons[i]? = some b' ∧
        b' = { b with isValid := b'.isValid } ∧
        (b'.isValid = true ↔
          ∃ h, kit.osvrClientGetInterface context b.ifacePath = some h ∧
            registrationOutcome kit b.type (some h) i = OSVR_RETURN_SUCCESS) ∧
        (∀ h, kit.osvrClientGetInterface context b.ifacePath = some h →
          expectedRegistration kit b.type (some h) i ∈
            (FOSVRInputDevice.ctorWith kit context table).2) ∧
        (b'.isValid = true →
          ∀ (dq : List Bool) (aq : List CFloat) (sent : List Notification),
            (sendButtonEvents 0
              { b' with digitalStateQueue := dq, analogStateQueue := aq } sent).2 =
              sent ++ (dq.map (digitalNotification b.key) ++
                aq.map (OnControllerAnalog b.key 0))) := by
  have hsound : InterfaceMap.Sound kit context [] := by
    intro p v hp
    simp at hp
  obtain ⟨_, r2, r3⟩ := setupButtonsLoop_valid_spec kit context table 0 [] hsound hfresh
  rw [ctorWith_of_valid kit context table hctx hstatus]
  refine ⟨r2, ?_⟩
  intro i b hb
  obtain ⟨b', e1, e2, e3, e4⟩ := r3 i b hb
  rw [Nat.zero_add] at e3 e4
  refine ⟨b', e1, e2, e3, ?_, ?_⟩
  · intro h hh
    simp only [List.mem_append]
    exact Or.inl (e4 h hh)
  · intro hv dq aq sent
    have hkey : b'.key = b.key := by rw [e2]
    rw [sendButtonEvents_eq]
    simp [hv, bindingNotifications, hkey]

/-- The sample table under the sample client: the button at index 1 is on a path that
resolves and its registration succeeds, so it is valid after setup although the button
before it failed to resolve. -/
theorem C6_setup_validity_per_binding_witness :
    (∀ b ∈ sampleTable, b.isValid = true) ∧
    ∃ b', (FOSVRInputDevice.ctorWith sampleKit (some 1) sampleTable).1.osvrButtons[1]? =
        some b' ∧ b'.isValid = true := by
  have hfresh : ∀ b ∈ sampleTable, b.isValid = true := by
    intro b hb
    simp only [sampleTable, List.mem_cons, List.mem_singleton, List.not_mem_nil,
      or_false] at hb
    rcases hb with rfl | rfl | rfl | rfl <;> rfl
  obtain ⟨b', h1, _, h3, _⟩ :=
    (C6_setup_validity_per_binding sampleKit (some 1) sampleTable rfl rfl hfresh).2 1
      (OSVRButton.ctor OSVR_BUTTON_TYPE_DIGITAL "FaceButton2" "/controller/left/2") rfl
  refine ⟨hfresh, b', h1, h3.mpr ⟨"/controller/left/2".length, ?_, rfl⟩⟩
  simp [sampleKit, OSVRButton.ctor]

/-! ## Handles: resolved once, released once -/

/-- One iteration of the setup loop, seen from the map: the map grows by exactly the
successful resolve calls of the iteration, keys stay distinct, and a registration is
made on the handle the map holds for the button's path. -/
theorem setupButton_map_spec (kit : ClientKit) (context : OSVR_ClientContext) (i : Nat)
    (b : OSVRButton) (m : InterfaceMap) :
    (setupButton kit context i b m).interfaces =
      m ++ (successfulResolves (setupButton kit context i b m).calls).map resolvedEntry ∧
    ((m.map Prod.fst).Nodup →
      ((setupButton kit context i b m).interfaces.map Prod.fst).Nodup) ∧
    (∀ c ∈ (setupButton kit context i b m).calls, c.registrationResult.isSome = true →
      ∃ iface, (setupButton kit context i b m).interfaces.lookup b.ifacePath = some iface ∧
        c = expectedRegistration kit b.type iface i) := by
  have hfreshkey : m.lookup b.ifacePath = none → b.ifacePath ∉ m.map Prod.fst := by
    intro hl hmem
    rw [List.lookup_eq_none_iff] at hl
    obtain ⟨e, he, hk⟩ := List.mem_map.mp hmem
    have := hl e he
    simp [hk] at this
  have hnew : ∀ h : Nat, m.lookup b.ifacePath = none →
      (m ++ [(b.ifacePath, some h)]).lookup b.ifacePath = some (some h) := by
    intro h hl
    rw [List.lookup_append, hl]
    simp [List.lookup_cons]
  cases hl : m.lookup b.ifacePath with
  | none =>
    cases hg : kit.osvrClientGetInterface context b.ifacePath with
    | none =>
      rw [setupButton_unresolved kit context i b m hl hg]
      refine ⟨by simp [successfulResolves], fun hk => hk, ?_⟩
      intro c hc hreg
      simp only [List.mem_singleton] at hc
      subst hc
      simp [ClientCall.registrationResult] at hreg
    | some h =>
      cases hv : b.isValid with
      | true =>
        rw [setupButton_resolved kit context i b m h hl hg hv]
        refine ⟨?_, ?_, ?_⟩
        · cases b.type <;> simp [successfulResolves, expectedRegistration, resolvedEntry]
        · intro hk
          simp only [List.map_append, List.map_cons, List.map_nil]
          rw [List.nodup_append]
          refine ⟨hk, by simp, ?_⟩
          intro x hx hx'
          simp only [List.mem_singleton] at hx'
          subst hx'
          exact hfreshkey hl hx
        · intro c hc hreg
          simp only [List.mem_cons, List.mem_singleton, List.not_mem_nil, or_false] at hc
          rcases hc with rfl | rfl
          · simp [ClientCall.registrationResult] at hreg
          · exact ⟨some h, hnew h hl, rfl⟩
      | false =>
        rw [setupButton_resolved_invalid kit context i b m h hl hg hv]
        refine ⟨by simp [successfulResolves, resolvedEntry], ?_, ?_⟩
        · intro hk
          simp only [List.map_append, List.map_cons, List.map_nil]
          rw [List.nodup_append]
          refine ⟨hk, by simp, ?_⟩
          intro x hx hx'
          simp only [List.mem_singleton] at hx'
          subst hx'
          exact hfreshkey hl hx
        · intro c hc hreg
          simp only [List.mem_singleton] at hc
          subst hc
          simp [ClientCall.registrationResult] at hreg
  | some stored =>
    cases hv : b.isValid with
    | true =>
      rw [setupButton_found kit context i b m stored hl hv]
      refine ⟨by simp [successfulResolves_expectedRegistration], fun hk => hk, ?_⟩
      intro c hc _
      simp only [List.mem_singleton] at hc
      exact ⟨stored, hl, hc⟩
    | false =>
      rw [setupButton_found_invalid kit context i b m stored hl hv]
      exact ⟨by simp [successfulResolves], fun hk => hk, by simp⟩

theorem lookup_append_of_some (m extra : InterfaceMap) (path : String)
    (iface : OSVR_ClientInterface) (h : m.lookup path = some iface) :
    (m ++ extra).lookup path = some iface := by
  rw [List.lookup_append, h]
  rfl

/-- The setup loop, seen from the map. -/
theorem setupButtonsLoop_map_spec (kit : ClientKit) (context : OSVR_ClientContext)
    (bs : List OSVRButton) :
    ∀ (i : Nat) (m : InterfaceMap),
      (setupButtonsLoop kit context i bs m).interfaces =
        m ++ (successfulResolves (setupButtonsLoop kit context i bs m).calls).map
          resolvedEntry ∧
      ((m.map Prod.fst).Nodup →
        ((setupButtonsLoop kit context i bs m).interfaces.map Prod.fst).Nodup) ∧
      (∀ c ∈ (setupButtonsLoop kit context i bs m).calls,
        c.registrationResult.isSome = true →
        ∃ (j : Nat) (b : OSVRButton) (iface : OSVR_ClientInterface),
          bs[j]? = some b ∧
          (setupButtonsLoop kit context i bs m).interfaces.lookup b.ifacePath = some iface ∧
          c = expectedRegistration kit b.type iface (i + j)) := by
  induction bs with
  | nil =>
    intro i m
    simp [setupButtonsLoop, successfulResolves]
  | cons a rest ih =>
    intro i m
    obtain ⟨s1, s2, s3⟩ := setupButton_map_spec kit context i a m
    obtain ⟨r1, r2, r3⟩ := ih (i + 1) (setupButton kit context i a m).interfaces
    refine ⟨?_, ?_, ?_⟩
    · simp only [setupButtonsLoop]
      rw [r1, successfulResolves_append, List.map_append, ← List.append_assoc, ← s1]
    · intro hk
      simp only [setupButtonsLoop]
      exact r2 (s2 hk)
    · intro c hc hreg
      simp only [setupButtonsLoop, List.mem_append] at hc
      rcases hc with hc | hc
      · obtain ⟨iface, e1, e2⟩ := s3 c hc hreg
        refine ⟨0, a, iface, by simp, ?_, by simpa using e2⟩
        simp only [setupButtonsLoop]
        rw [r1]
        exact lookup_append_of_some _ _ _ _ e1
      · obtain ⟨j, b, iface, e1, e2, e3⟩ := r3 c hc hreg
        refine ⟨j + 1, b, iface, by simpa using e1, by simpa [setupButtonsLoop] using e2, ?_⟩
        rw [e3]
        congr 1
        omega

theorem freeInterfacesLoop_resolved (resolved : List (String × Nat)) :
    freeInterfacesLoop (resolved.map resolvedEntry) =
      resolved.map (fun e => freeInterface e.2) := by
  induction resolved with
  | nil => simp [freeInterfacesLoop]
  | cons e rest ih => simp [freeInterfacesLoop, freeIfNotNull, resolvedEntry, ih]

/-- C7: during the constructor's setup loop each path is successfully resolved at most
once, every registration is made on the handle the map holds for the binding's path, and
the destructor releases the two hand interfaces and then, from the map, exactly the
handles the successful resolve calls returned, one release per successful call (so no
handle is released twice when the client hands out distinct handles). -/
theorem C7_resolved_once_released_once (kit : ClientKit) (context : OSVR_ClientContext)
    (table : List OSVRButton) (hctx : context.isSome = true)
    (hstatus : kit.osvrClientCheckStatus context = OSVR_RETURN_SUCCESS) :
    ((successfulResolves (setupButtonsLoop kit context 0 table []).calls).map
      Prod.fst).Nodup ∧
    (FOSVRInputDevice.ctorWith kit context table).1.interfaces =
      (successfulResolves (setupButtonsLoop kit context 0 table []).calls).map
        resolvedEntry ∧
    (∀ c ∈ (setupButtonsLoop kit context 0 table []).calls,
      c.registrationResult.isSome = true →
      ∃ (i : Nat) (b : OSVRButton) (iface : OSVR_ClientInterface),
        table[i]? = some b ∧
        (FOSVRInputDevice.ctorWith kit context table).1.interfaces.lookup b.ifacePath =
          some iface ∧
        c = expectedRegistration kit b.type iface i) ∧
    (FOSVRInputDevice.ctorWith kit context table).2 =
      (setupButtonsLoop kit context 0 table []).calls ++
        [getInterface "/me/hands/left" (kit.osvrClientGetInterface context "/me/hands/left"),
         getInterface "/me/hands/right"
           (kit.osvrClientGetInterface context "/me/hands/right"),
         registerModularFeature, addMotionControllerDevice] ∧
    (FOSVRInputDevice.ctorWith kit context table).1.dtor =
      freeIfNotNull (FOSVRInputDevice.ctorWith kit context table).1.leftHand ++
        freeIfNotNull (FOSVRInputDevice.ctorWith kit context table).1.rightHand ++
        freeInterfacesLoop (FOSVRInputDevice.ctorWith kit context table).1.interfaces ∧
    (freeInterfacesLoop (FOSVRInputDevice.ctorWith kit context table).1.interfaces).Perm
      ((successfulResolves (setupButtonsLoop kit context 0 table []).calls).map
        (fun e => freeInterface e.2)) ∧
    (((successfulResolves (setupButtonsLoop kit context 0 table []).calls).map
        Prod.snd).Nodup →
      (freeInterfacesLoop
        (FOSVRInputDevice.ctorWith kit context table).1.interfaces).Nodup) := by
  obtain ⟨r1, r2, r3⟩ := setupButtonsLoop_map_spec kit context table 0 []
  rw [List.nil_append] at r1
  have hkeys : ((successfulResolves (setupButtonsLoop kit context 0 table []).calls).map
      Prod.fst).Nodup := by
    have h := r2 (by simp)
    rw [r1, List.map_map] at h
    exact h
  rw [ctorWith_of_valid kit context table hctx hstatus]
  refine ⟨hkeys, r1, ?_, rfl, ?_, ?_, ?_⟩
  · intro c hc hreg
    obtain ⟨j, b, iface, e1, e2, e3⟩ := r3 c hc hreg
    exact ⟨j, b, iface, e1, e2, by simpa using e3⟩
  · simp [FOSVRInputDevice.dtor, hctx]
  · simp only [r1, freeInterfacesLoop_resolved]
    exact List.Perm.refl _
  · intro hnd
    simp only [r1, freeInterfacesLoop_resolved]
    have hinj : Function.Injective (fun h : Nat => freeInterface h) := by
      intro x y hxy
      simpa using hxy
    have := hnd.map hinj
    simpa [List.map_map] using this

/-- The sample table under the sample client: the two successfully resolved paths are
distinct, and the destructor's map loop releases what was resolved. -/
theorem C7_resolved_once_released_once_witness :
    (some 1 : OSVR_ClientContext).isSome = true ∧
    sampleKit.osvrClientCheckStatus (some 1) = OSVR_RETURN_SUCCESS ∧
    ((successfulResolves (setupButtonsLoop sampleKit (some 1) 0 sampleTable []).calls).map
      Prod.fst).Nodup ∧
    (freeInterfacesLoop
      (FOSVRInputDevice.ctorWith sampleKit (some 1) sampleTable).1.interfaces).Perm
      ((successfulResolves (setupButtonsLoop sampleKit (some 1) 0 sampleTable []).calls).map
        (fun e => freeInterface e.2)) :=
  ⟨rfl, rfl,
    (C7_resolved_once_released_once sampleKit (some 1) sampleTable rfl rfl).1,
    (C7_resolved_once_released_once sampleKit (some 1) sampleTable rfl rfl).2.2.2.2.2.1⟩

/-! ## An unavailable context leaves the device inert -/

theorem afterTicks_of_no_buttons (d : FOSVRInputDevice) (h : d.osvrButtons = []) (n : Nat) :
    d.afterTicks n = d := by
  induction n with
  | zero => rfl
  | succ k ih =>
    rw [FOSVRInputDevice.afterTicks, ih, SendControllerEvents_eq, h]
    cases d
    simp only at h
    subst h
    rfl

/-- C8: when the context is null or its status check does not report success, the
constructor leaves the binding list and the handle map empty and makes no call at all
(no resolve, no callback registration, no registration as an input provider), whatever
the binding table; and every later SendControllerEvents call emits nothing and leaves
the device as it is. -/
theorem C8_unavailable_context_is_noop (kit : ClientKit) (context : OSVR_ClientContext)
    (table : List OSVRButton)
    (h : context = none ∨ kit.osvrClientCheckStatus context ≠ OSVR_RETURN_SUCCESS) :
    (FOSVRInputDevice.ctorWith kit context table).1.contextValid = false ∧
    (FOSVRInputDevice.ctorWith kit context table).1.osvrButtons = [] ∧
    (FOSVRInputDevice.ctorWith kit context table).1.interfaces = [] ∧
    (FOSVRInputDevice.ctorWith kit context table).2 = [] ∧
    (∀ n : Nat,
      ((FOSVRInputDevice.ctorWith kit context table).1.afterTicks n).SendControllerEvents =
        ((FOSVRInputDevice.ctorWith kit context table).1, [])) := by
  rw [ctorWith_of_invalid kit context table h]
  refine ⟨rfl, rfl, rfl, rfl, ?_⟩
  intro n
  rw [afterTicks_of_no_buttons _ rfl n, SendControllerEvents_eq]
  rfl

/-- The built-in table with a null context: no call is made. -/
theorem C8_unavailable_context_is_noop_witness :
    ((none : OSVR_ClientContext) = none ∨
      sampleKit.osvrClientCheckStatus none ≠ OSVR_RETURN_SUCCESS) ∧
    (FOSVRInputDevice.ctor sampleKit none).2 = [] ∧
    (FOSVRInputDevice.ctor sampleKit none).1.osvrButtons = [] :=
  ⟨Or.inl rfl,
    (C8_unavailable_context_is_noop sampleKit none osvrButtonsTable (Or.inl rfl)).2.2.2.1,
    (C8_unavailable_context_is_noop sampleKit none osvrButtonsTable (Or.inl rfl)).2.1⟩

/-! ## Controller pose -/

theorem handInterface_eq (d : FOSVRInputDevice) (hand : EControllerHand) :
    (if hand = EControllerHand.Left then d.leftHand else d.rightHand) =
      handInterface d hand := by
  cases hand with
  | zero => simp [handInterface, EControllerHand.Left]
  | succ k => simp [handInterface, EControllerHand.Left]

/-- C9: GetControllerOrientationAndPosition returns true exactly when the controller
index is 0, the status check succeeds and the pose query on the requested hand's
interface succeeds; when it returns false both out-parameters hold the values the
caller passed in. -/
theorem C9_tracked_iff_and_outputs_kept (d : FOSVRInputDevice) (kit : ClientKit)
    (conv : PoseConversions) (hmd : FOSVRHMD) (ControllerIndex : Int)
    (DeviceHand : EControllerHand) (OutOrientation : FRotator) (OutPosition : FVector) :
    ((d.GetControllerOrientationAndPosition kit conv hmd ControllerIndex DeviceHand
        OutOrientation OutPosition).RetVal = true ↔
      ControllerIndex = 0 ∧
      kit.osvrClientCheckStatus d.context = OSVR_RETURN_SUCCESS ∧
      (kit.osvrGetPoseState (handInterface d DeviceHand)).isSome = true) ∧
    ((d.GetControllerOrientationAndPosition kit conv hmd ControllerIndex DeviceHand
        OutOrientation OutPosition).RetVal = false →
      (d.GetControllerOrientationAndPosition kit conv hmd ControllerIndex DeviceHand
        OutOrientation OutPosition).OutOrientation = OutOrientation ∧
      (d.GetControllerOrientationAndPosition kit conv hmd ControllerIndex DeviceHand
        OutOrientation OutPosition).OutPosition = OutPosition) := by
  unfold FOSVRInputDevice.GetControllerOrientationAndPosition
  rw [handInterface_eq]
  by_cases hi : ControllerIndex = 0
  · by_cases hs : kit.osvrClientCheckStatus d.context = OSVR_RETURN_SUCCESS
    · cases hp : kit.osvrGetPoseState (handInterface d DeviceHand) <;> simp [hi, hs, hp]
    · simp [hi, hs]
  · simp [hi]

/-- A GreaterThan binding and a LessThan binding whose thresholds do not overlap, fed
the same samples from the released state, are never both pressed. -/
theorem threshold_pair_exclusive (up down : OSVRButton) (samples : List CFloat)
    (tup : up.type = OSVR_BUTTON_TYPE_THRESHOLD)
    (tdown : down.type = OSVR_BUTTON_TYPE_THRESHOLD)
    (gup : up.thresholdType = OSVR_THRESHOLD_TYPE_GT)
    (gdown : down.thresholdType = OSVR_THRESHOLD_TYPE_LT)
    (hth : down.threshold ≤ up.threshold)
    (oup : up.oldState = false) (odown : down.oldState = false) :
    ¬ ((deliverAnalog up samples).oldState = true ∧
      (deliverAnalog down samples).oldState = true) := by
  rw [(deliverAnalog_threshold_fields up tup samples).2.2.2,
    (deliverAnalog_threshold_fields down tdown samples).2.2.2, oup, odown]
  cases samples.getLast? with
  | none => simp
  | some s =>
    simp only [Option.map_some', Option.getD_some, thresholdSignal, gup, gdown]
    intro h
    have h1 : s > up.threshold := by simpa using h.1
    have h2 : s < down.threshold := by simpa using h.2
    linarith

/-- The threshold entries of the built-in table: all start released; a GreaterThan
entry has threshold 1/4 or, on a trigger path, the default 3/4; a LessThan entry has
threshold -1/4 and is on a joystick axis path. -/
theorem osvrButtonsTable_thresholds (b : OSVRButton) (hb : b ∈ osvrButtonsTable) :
    b.oldState = false ∧
    (b.type = OSVR_BUTTON_TYPE_THRESHOLD → b.thresholdType = OSVR_THRESHOLD_TYPE_GT →
      b.threshold = 1 / 4 ∨
      (b.threshold = 3 / 4 ∧
        (b.ifacePath = "/controller/left/trigger" ∨
          b.ifacePath = "/controller/right/trigger"))) ∧
    (b.type = OSVR_BUTTON_TYPE_THRESHOLD → b.thresholdType = OSVR_THRESHOLD_TYPE_LT →
      b.threshold = -(1 / 4) ∧
      b.ifacePath ≠ "/controller/left/trigger" ∧
      b.ifacePath ≠ "/controller/right/trigger") := by
  simp only [osvrButtonsTable, List.mem_cons, List.mem_singleton, List.not_mem_nil,
    or_false] at hb
  rcases hb with h | h | h | h | h | h | h | h | h | h | h | h | h | h | h | h | h | h | h | h |
    h | h | h | h | h | h | h | h | h | h | h | h | h | h | h | h | h | h | h | h |
    h | h | h | h | h | h | h | h | h | h | h | h | h | h | h | h | h | h <;>
  · subst h
    simp [OSVRButton.ctor, OSVRButton.ctorThreshold, defaultThreshold]

/-- C13: for every GreaterThan threshold binding and every LessThan threshold binding
of the built-in table that share an axis path, the thresholds are 1/4 and -1/4, and
after any sequence of analog samples delivered to both from the initial state (hence
after every sample of any run) the two are not both pressed. -/
theorem C13_axis_directions_never_both_pressed (up down : OSVRButton)
    (hup : up ∈ osvrButtonsTable) (hdown : down ∈ osvrButtonsTable)
    (tup : up.type = OSVR_BUTTON_TYPE_THRESHOLD)
    (tdown : down.type = OSVR_BUTTON_TYPE_THRESHOLD)
    (gup : up.thresholdType = OSVR_THRESHOLD_TYPE_GT)
    (gdown : down.thresholdType = OSVR_THRESHOLD_TYPE_LT)
    (hpath : up.ifacePath = down.ifacePath) :
    up.threshold = 1 / 4 ∧ down.threshold = -(1 / 4) ∧
    ∀ samples : List CFloat,
      ¬ ((deliverAnalog up samples).oldState = true ∧
        (deliverAnalog down samples).oldState = true) := by
  obtain ⟨oup, hgt, _⟩ := osvrButtonsTable_thresholds up hup
  obtain ⟨odown, _, hlt⟩ := osvrButtonsTable_thresholds down hdown
  obtain ⟨hd, hn1, hn2⟩ := hlt tdown gdown
  have hu : up.threshold = 1 / 4 := by
    rcases hgt tup gup with h | ⟨_, h | h⟩
    · exact h
    · exact absurd (hpath ▸ h) hn1
    · exact absurd (hpath ▸ h) hn2
  refine ⟨hu, hd, ?_⟩
  intro samples
  apply threshold_pair_exclusive up down samples tup tdown gup gdown _ oup odown
  rw [hu, hd]
  norm_num

/-- The pair Thumbstick_Right / Thumbstick_Left of the left joystick's x axis. -/
theorem C13_axis_directions_never_both_pressed_witness :
    OSVRButton.ctorThreshold OSVR_BUTTON_TYPE_THRESHOLD OSVR_THRESHOLD_TYPE_GT
        defaultThreshold "MotionController_Left_Thumbstick_Right"
        "/controller/left/joystick/x" ∈ osvrButtonsTable ∧
    OSVRButton.ctorThreshold OSVR_BUTTON_TYPE_THRESHOLD OSVR_THRESHOLD_TYPE_LT
        (-defaultThreshold) "MotionController_Left_Thumbstick_Left"
        "/controller/left/joystick/x" ∈ osvrButtonsTable ∧
    ¬ ((deliverAnalog
          (OSVRButton.ctorThreshold OSVR_BUTTON_TYPE_THRESHOLD OSVR_THRESHOLD_TYPE_GT
            defaultThreshold "MotionController_Left_Thumbstick_Right"
            "/controller/left/joystick/x") [1 / 2, -1, 0, -1 / 2]).oldState = true ∧
        (deliverAnalog
          (OSVRButton.ctorThreshold OSVR_BUTTON_TYPE_THRESHOLD OSVR_THRESHOLD_TYPE_LT
            (-defaultThreshold) "MotionController_Left_Thumbstick_Left"
            "/controller/left/joystick/x") [1 / 2, -1, 0, -1 / 2]).oldState = true) := by
  have hu : OSVRButton.ctorThreshold OSVR_BUTTON_TYPE_THRESHOLD OSVR_THRESHOLD_TYPE_GT
      defaultThreshold "MotionController_Left_Thumbstick_Right"
      "/controller/left/joystick/x" ∈ osvrButtonsTable := by
    simp [osvrButtonsTable]
  have hd : OSVRButton.ctorThreshold OSVR_BUTTON_TYPE_THRESHOLD OSVR_THRESHOLD_TYPE_LT
      (-defaultThreshold) "MotionController_Left_Thumbstick_Left"
      "/controller/left/joystick/x" ∈ osvrButtonsTable := by
    simp [osvrButtonsTable]
  exact ⟨hu, hd,
    (C13_axis_directions_never_both_pressed _ _ hu hd rfl rfl rfl rfl rfl).2.2
      [1 / 2, -1, 0, -1 / 2]⟩

/-! ## Each binding only ever uses the queue of its kind -/

/-- One iteration of the setup loop changes nothing of the button but its validity
flag, whatever the button and the map. -/
theorem setupButton_button_fields (kit : ClientKit) (context : OSVR_ClientContext)
    (i : Nat) (b : OSVRButton) (m : InterfaceMap) :
    (setupButton kit context i b m).button =
      { b with isValid := (setupButton kit context i b m).button.isValid } := by
  cases hl : m.lookup b.ifacePath with
  | none =>
    cases hg : kit.osvrClientGetInterface context b.ifacePath with
    | none => rw [setupButton_unresolved kit context i b m hl hg]
    | some h =>
      cases hv : b.isValid with
      | true => rw [setupButton_resolved kit context i b m h hl hg hv]
      | false =>
        rw [setupButton_resolved_invalid kit context i b m h hl hg hv]
  | some stored =>
    cases hv : b.isValid with
    | true => rw [setupButton_found kit context i b m stored hl hv]
    | false =>
      rw [setupButton_found_invalid kit context i b m stored hl hv]

/-- Every button after the setup loop is a button of the table with, at most, another
validity flag. -/
theorem setupButtonsLoop_button_fields (kit : ClientKit) (context : OSVR_ClientContext)
    (bs : List OSVRButton) :
    ∀ (i : Nat) (m : InterfaceMap),
      ∀ b' ∈ (setupButtonsLoop kit context i bs m).osvrButtons,
        ∃ b ∈ bs, b' = { b with isValid := b'.isValid } := by
  induction bs with
  | nil =>
    intro i m b' hb'
    simp [setupButtonsLoop] at hb'
  | cons a rest ih =>
    intro i m b' hb'
    simp only [setupButtonsLoop, List.mem_cons] at hb'
    rcases hb' with rfl | hb'
    · exact ⟨a, List.mem_cons_self _ _, setupButton_button_fields kit context i a m⟩
    · obtain ⟨b, hb, e⟩ := ih (i + 1) _ b' hb'
      exact ⟨b, List.mem_cons_of_mem _ hb, e⟩

/-- The buttons of a constructed device have the queues of the table's buttons. -/
theorem ctorWith_button_fields (kit : ClientKit) (context : OSVR_ClientContext)
    (table : List OSVRButton) :
    ∀ b' ∈ (FOSVRInputDevice.ctorWith kit context table).1.osvrButtons,
      ∃ b ∈ table, b' = { b with isValid := b'.isValid } := by
  intro b' hb'
  by_cases hvalid : context.isSome = true ∧
      kit.osvrClientCheckStatus context = OSVR_RETURN_SUCCESS
  · rw [ctorWith_of_valid kit context table hvalid.1 hvalid.2] at hb'
    exact setupButtonsLoop_button_fields kit context table 0 [] b' hb'
  · have hinv : context = none ∨
        kit.osvrClientCheckStatus context ≠ OSVR_RETURN_SUCCESS := by
      by_cases hc : context = none
      · exact Or.inl hc
      · refine Or.inr (fun hs => hvalid ⟨?_, hs⟩)
        cases context with
        | none => exact absurd rfl hc
        | some c => rfl
    rw [ctorWith_of_invalid kit context table hinv] at hb'
    simp at hb'

theorem registeredButtonCallback_keeps (state : OSVR_ButtonState) (b : OSVRButton)
    (h : b.QueuesMatchType) : (registeredButtonCallback state b).QueuesMatchType := by
  unfold registeredButtonCallback
  by_cases hty : b.type = OSVR_BUTTON_TYPE_DIGITAL
  · rw [if_pos hty]
    refine ⟨?_, ?_⟩
    · intro ha
      simp [buttonCallback, hty] at ha
    · intro _
      simpa [buttonCallback] using h.2 (Or.inl hty)
  · rw [if_neg hty]
    exact h

theorem registeredAnalogCallback_keeps (state : CFloat) (b : OSVRButton)
    (h : b.QueuesMatchType) : (registeredAnalogCallback state b).QueuesMatchType := by
  unfold registeredAnalogCallback
  cases hty : b.type with
  | OSVR_BUTTON_TYPE_DIGITAL =>
    simpa using h
  | OSVR_BUTTON_TYPE_ANALOG =>
    have hne : b.type ≠ OSVR_BUTTON_TYPE_THRESHOLD := by rw [hty]; decide
    have hq := h.1 hty
    simp only [true_or, if_true]
    have e := deliverAnalog_not_threshold b hne [state]
    simp only [deliverAnalog, List.foldl_cons, List.foldl_nil] at e
    rw [e]
    exact ⟨fun _ => hq, fun hc => by simp [hty] at hc⟩
  | OSVR_BUTTON_TYPE_THRESHOLD =>
    obtain ⟨g1, _, _, _, _⟩ := analogCallback_threshold b state hty
    have haq : (analogCallback b state).analogStateQueue = b.analogStateQueue := by
      unfold analogCallback
      rw [if_pos hty]
      by_cases hc : ((b.thresholdType == OSVR_THRESHOLD_TYPE_GT && decide (state > b.threshold)) ||
          (b.thresholdType == OSVR_THRESHOLD_TYPE_LT && decide (state < b.threshold))) = b.oldState
      · simp [hc]
      · simp [hc]
    simp only [or_true, if_true]
    refine ⟨?_, ?_⟩
    · intro ha
      rw [g1, hty] at ha
      exact absurd ha (by decide)
    · intro _
      rw [haq]
      exact h.2 (Or.inr hty)

theorem afterDispatch_keeps (b : OSVRButton) (h : b.QueuesMatchType) :
    (afterDispatch b).QueuesMatchType := by
  unfold afterDispatch
  by_cases hv : b.isValid = true
  · simp [hv, OSVRButton.QueuesMatchType]
  · simpa [hv] using h

theorem invokeCallback_keeps (callback : OSVRButton → OSVRButton)
    (P : OSVRButton → Prop) (hcb : ∀ b, P b → P (callback b)) (bs : List OSVRButton) :
    ∀ i : Nat, (∀ b ∈ bs, P b) → ∀ b ∈ invokeCallback callback bs i, P b := by
  induction bs with
  | nil =>
    intro i _ b hb
    simp [invokeCallback] at hb
  | cons a rest ih =>
    intro i hall b hb
    cases i with
    | zero =>
      simp only [invokeCallback, List.mem_cons] at hb
      rcases hb with rfl | hb
      · exact hcb a (hall a (List.mem_cons_self _ _))
      · exact hall b (List.mem_cons_of_mem _ hb)
    | succ k =>
      simp only [invokeCallback, List.mem_cons] at hb
      rcases hb with rfl | hb
      · exact hall _ (List.mem_cons_self _ _)
      · exact ih k (fun c hc => hall c (List.mem_cons_of_mem _ hc)) b hb

/-- The queue discipline survives every event. -/
theorem step_keeps (d : FOSVRInputDevice) (e : DeviceEvent)
    (h : ∀ b ∈ d.osvrButtons, b.QueuesMatchType) :
    ∀ b ∈ (d.step e).osvrButtons, b.QueuesMatchType := by
  cases e with
  | buttonReport i state =>
    exact invokeCallback_keeps _ _ (registeredButtonCallback_keeps state) _ i h
  | analogReport i state =>
    exact invokeCallback_keeps _ _ (registeredAnalogCallback_keeps state) _ i h
  | sendControllerEvents =>
    intro b hb
    simp only [FOSVRInputDevice.step, SendControllerEvents_eq, List.mem_map] at hb
    obtain ⟨a, ha, rfl⟩ := hb
    exact afterDispatch_keeps a (h a ha)

/-- The queue discipline survives every sequence of events. -/
theorem run_keeps (events : List DeviceEvent) :
    ∀ d : FOSVRInputDevice, (∀ b ∈ d.osvrButtons, b.QueuesMatchType) →
      ∀ b ∈ (d.run events).osvrButtons, b.QueuesMatchType := by
  induction events with
  | nil =>
    intro d h
    exact h
  | cons e rest ih =>
    intro d h
    exact ih (d.step e) (step_keeps d e h)

/-- The entries of the built-in table are as their constructors leave them: valid,
released, with both queues empty. -/
theorem osvrButtonsTable_fresh (b : OSVRButton) (hb : b ∈ osvrButtonsTable) :
    b.digitalStateQueue = [] ∧ b.analogStateQueue = [] := by
  simp only [osvrButtonsTable, List.mem_cons, List.mem_singleton, List.not_mem_nil,
    or_false] at hb
  rcases hb with h | h | h | h | h | h | h | h | h | h | h | h | h | h | h | h | h | h | h | h |
    h | h | h | h | h | h | h | h | h | h | h | h | h | h | h | h | h | h | h | h |
    h | h | h | h | h | h | h | h | h | h | h | h | h | h | h | h | h | h <;>
  · subst h
    exact ⟨rfl, rfl⟩

/-- What the loop body of SendControllerEvents emits for a binding that keeps the
queue discipline: only analog-changed calls for an analog binding, only
pressed/released calls for a digital or threshold binding. -/
theorem sendButtonEvents_kind (b : OSVRButton) (h : b.QueuesMatchType)
    (n : Notification) (hn : n ∈ (sendButtonEvents 0 b []).2) :
    (n.isButtonEvent = true ↔ b.type ≠ OSVR_BUTTON_TYPE_ANALOG) := by
  rw [sendButtonEvents_eq] at hn
  by_cases hv : b.isValid = true
  · simp only [hv, if_true, List.nil_append, bindingNotifications, List.mem_append,
      List.mem_map] at hn
    by_cases hty : b.type = OSVR_BUTTON_TYPE_ANALOG
    · rw [h.1 hty] at hn
      rcases hn with ⟨_, hx, _⟩ | ⟨x, _, rfl⟩
      · simp at hx
      · simp [Notification.isButtonEvent, hty]
    · have hdt : b.type = OSVR_BUTTON_TYPE_DIGITAL ∨ b.type = OSVR_BUTTON_TYPE_THRESHOLD := by
        cases hb : b.type with
        | OSVR_BUTTON_TYPE_DIGITAL => exact Or.inl rfl
        | OSVR_BUTTON_TYPE_ANALOG => exact absurd hb hty
        | OSVR_BUTTON_TYPE_THRESHOLD => exact Or.inr rfl
      rw [h.2 hdt] at hn
      rcases hn with ⟨x, _, rfl⟩ | ⟨_, hx, _⟩
      · cases x <;> simp [digitalNotification, Notification.isButtonEvent, hty]
      · simp at hx
  · simp [hv] at hn

/-- C14: in every state reached from a constructed device (any client, any context, any
table of freshly constructed bindings) by button reports on digital bindings, analog
reports on analog and threshold bindings, and SendControllerEvents calls, an analog
binding has an empty digital queue and a digital or threshold binding has an empty
analog queue; so no binding has both queues non-empty, and the dispatch of a binding
emits only analog-changed calls for an analog binding and only pressed/released calls
for a digital or threshold binding. -/
theorem C14_queues_match_binding_kind (kit : ClientKit) (context : OSVR_ClientContext)
    (table : List OSVRButton) (events : List DeviceEvent)
    (hfresh : ∀ b ∈ table, b.digitalStateQueue = [] ∧ b.analogStateQueue = []) :
    ∀ b ∈ ((FOSVRInputDevice.ctorWith kit context table).1.run events).osvrButtons,
      (b.type = OSVR_BUTTON_TYPE_ANALOG → b.digitalStateQueue = []) ∧
      (b.type = OSVR_BUTTON_TYPE_DIGITAL ∨ b.type = OSVR_BUTTON_TYPE_THRESHOLD →
        b.analogStateQueue = []) ∧
      (b.digitalStateQueue = [] ∨ b.analogStateQueue = []) ∧
      (∀ n ∈ (sendButtonEvents 0 b []).2,
        (n.isButtonEvent = true ↔ b.type ≠ OSVR_BUTTON_TYPE_ANALOG)) := by
  have hinit : ∀ b ∈ (FOSVRInputDevice.ctorWith kit context table).1.osvrButtons,
      b.QueuesMatchType := by
    intro b' hb'
    obtain ⟨b, hb, e⟩ := ctorWith_button_fields kit context table b' hb'
    obtain ⟨hd, ha⟩ := hfresh b hb
    rw [e]
    exact ⟨fun _ => hd, fun _ => ha⟩
  intro b hb
  have hq := run_keeps events _ hinit b hb
  refine ⟨hq.1, hq.2, ?_, sendButtonEvents_kind b hq⟩
  cases hty : b.type with
  | OSVR_BUTTON_TYPE_DIGITAL => exact Or.inr (hq.2 (Or.inl hty))
  | OSVR_BUTTON_TYPE_ANALOG => exact Or.inl (hq.1 hty)
  | OSVR_BUTTON_TYPE_THRESHOLD => exact Or.inr (hq.2 (Or.inr hty))

/-- The device built from the built-in table, after reports on an analog axis, a
digital button and a threshold binding, a dispatch, and a further report. -/
theorem C14_queues_match_binding_kind_witness :
    (∀ b ∈ osvrButtonsTable, b.digitalStateQueue = [] ∧ b.analogStateQueue = []) ∧
    ∀ b ∈ ((FOSVRInputDevice.ctor sampleKit (some 1)).1.run
        [DeviceEvent.analogReport 7 (1 / 2), DeviceEvent.buttonReport 0 1,
          DeviceEvent.analogReport 8 (1 / 2), DeviceEvent.sendControllerEvents,
          DeviceEvent.analogReport 8 0]).osvrButtons,
      b.digitalStateQueue = [] ∨ b.analogStateQueue = [] :=
  ⟨osvrButtonsTable_fresh, fun b hb =>
    (C14_queues_match_binding_kind sampleKit (some 1) osvrButtonsTable
      [DeviceEvent.analogReport 7 (1 / 2), DeviceEvent.buttonReport 0 1,
        DeviceEvent.analogReport 8 (1 / 2), DeviceEvent.sendControllerEvents,
        DeviceEvent.analogReport 8 0] osvrButtonsTable_fresh b hb).2.2.1⟩

/-! ## HMD calibration resets -/

/-- C12: for every calibration state and every yaw argument, ResetOrientation makes the
base orientation the quaternion of a rotator with pitch 0 and roll 0 whose yaw is
obtained from the yaw component of the current orientation (two states with the same
current yaw get the same base orientation), and leaves the base position and the
current pose as they were; ResetPosition makes the base position the current position
and leaves the base orientation and the current pose as they were. -/
theorem C12_resets_touch_only_their_base (hmd : FOSVRHMDState) (rot : RotationConversions)
    (yaw : CFloat) :
    (∃ r : FRotator, r.Pitch = 0 ∧ r.Roll = 0 ∧
      r.Yaw = rot.resetYaw (rot.Rotator hmd.CurHmdOrientation).Yaw yaw ∧
      (hmd.ResetOrientation rot yaw).BaseOrientation = rot.Quaternion r) ∧
    (∀ other : FOSVRHMDState,
      (rot.Rotator other.CurHmdOrientation).Yaw = (rot.Rotator hmd.CurHmdOrientation).Yaw →
      (other.ResetOrientation rot yaw).BaseOrientation =
        (hmd.ResetOrientation rot yaw).BaseOrientation) ∧
    (hmd.ResetOrientation rot yaw).BasePosition = hmd.BasePosition ∧
    (hmd.ResetOrientation rot yaw).CurHmdOrientation = hmd.CurHmdOrientation ∧
    (hmd.ResetOrientation rot yaw).CurHmdPosition = hmd.CurHmdPosition ∧
    hmd.ResetPosition.BasePosition = hmd.CurHmdPosition ∧
    hmd.ResetPosition.BaseOrientation = hmd.BaseOrientation ∧
    hmd.ResetPosition.CurHmdOrientation = hmd.CurHmdOrientation ∧
    hmd.ResetPosition.CurHmdPosition = hmd.CurHmdPosition := by
  refine ⟨⟨_, rfl, rfl, rfl, rfl⟩, ?_, rfl, rfl, rfl, rfl, rfl, rfl, rfl⟩
  intro other hyaw
  simp [FOSVRHMDState.ResetOrientation, hyaw]

end OSVR
